import Mathlib

/-!
Verification of the tool-call intent validation and idempotent execution
pipeline of the `axoim_voice` backend (`app/services/intent_service.py`,
`app/services/execution_service.py`, `app/services/realtime_handler.py`),
as a shallow embedding in Lean 4.

Machine integers are modelled as `Nat` with explicit reduction modulo
`2 ^ 32` where the source relies on 32-bit wraparound (the SHA-256 digest
used for intent identities).  Fallible code is modelled with
`Option`/`Except`.  Wall-clock timestamps produced by `datetime.utcnow()`
are abstracted to unit values, since no claim depends on their content.
-/

namespace AxoimVoice

/-! ## SHA-256 (model of Python `hashlib.sha256(...).hexdigest()`)

`intent_service.validate_calendar_intent` derives the idempotency key via
`hashlib.sha256(key.encode()).hexdigest()[:16]`.  We embed SHA-256 over
`Nat` words reduced mod `2 ^ 32`. -/

def mask32 : Nat := 4294967295

def add32 (a b : Nat) : Nat := (a + b) % 4294967296

def rotr32 (n x : Nat) : Nat :=
  ((x >>> n) ||| (x <<< (32 - n))) &&& mask32

def shr32 (n x : Nat) : Nat := x >>> n

def not32 (x : Nat) : Nat := Nat.xor x mask32

/-- The 64 SHA-256 round constants. -/
def sha256K : List Nat :=
  [1116352408, 1899447441, 3049323471, 3921009573, 961987163,
   1508970993, 2453635748, 2870763221, 3624381080, 310598401,
   607225278, 1426881987, 1925078388, 2162078206, 2614888103,
   3248222580, 3835390401, 4022224774, 264347078, 604807628,
   770255983, 1249150122, 1555081692, 1996064986, 2554220882,
   2821834349, 2952996808, 3210313671, 3336571891, 3584528711,
   113926993, 338241895, 666307205, 773529912, 1294757372,
   1396182291, 1695183700, 1986661051, 2177026350, 2456956037,
   2730485921, 2820302411, 3259730800, 3345764771, 3516065817,
   3600352804, 4094571909, 275423344, 430227734, 506948616,
   659060556, 883997877, 958139571, 1322822218, 1537002063,
   1747873779, 1955562222, 2024104815, 2227730452, 2361852424,
   2428436474, 2756734187, 3204031479, 3329325298]

/-- SHA-256 working state: eight 32-bit words. -/
structure Sha256State where
  a : Nat
  b : Nat
  c : Nat
  d : Nat
  e : Nat
  f : Nat
  g : Nat
  h : Nat
  deriving Repr, DecidableEq

def sha256Init : Sha256State :=
  ⟨1779033703, 3144134277, 1013904242, 2773480762,
   1359893119, 2600822924, 528734635, 1541459225⟩

/-- Extend 16 message words to the 64-entry schedule. -/
def sha256Schedule (ws : Array Nat) : Array Nat :=
  (List.range 48).foldl
    (fun acc i =>
      let j := i + 16
      let w15 := acc.getD (j - 15) 0
      let w2 := acc.getD (j - 2) 0
      let s0 := Nat.xor (Nat.xor (rotr32 7 w15) (rotr32 18 w15)) (shr32 3 w15)
      let s1 := Nat.xor (Nat.xor (rotr32 17 w2) (rotr32 19 w2)) (shr32 10 w2)
      acc.push (add32 (add32 (acc.getD (j - 16) 0) s0) (add32 (acc.getD (j - 7) 0) s1)))
    ws

/-- One SHA-256 round. -/
def sha256Round (st : Sha256State) (kw : Nat × Nat) : Sha256State :=
  let S1 := Nat.xor (Nat.xor (rotr32 6 st.e) (rotr32 11 st.e)) (rotr32 25 st.e)
  let ch := Nat.xor (st.e &&& st.f) ((not32 st.e) &&& st.g)
  let temp1 := add32 (add32 st.h S1) (add32 ch (add32 kw.1 kw.2))
  let S0 := Nat.xor (Nat.xor (rotr32 2 st.a) (rotr32 13 st.a)) (rotr32 22 st.a)
  let maj := Nat.xor (Nat.xor (st.a &&& st.b) (st.a &&& st.c)) (st.b &&& st.c)
  let temp2 := add32 S0 maj
  ⟨add32 temp1 temp2, st.a, st.b, st.c, add32 st.d temp1, st.e, st.f, st.g⟩

/-- Compress one 512-bit block (16 words) into the running state. -/
def sha256Compress (st : Sha256State) (block : Array Nat) : Sha256State :=
  let ws := sha256Schedule block
  let r := (sha256K.zip ws.toList).foldl sha256Round st
  ⟨add32 st.a r.a, add32 st.b r.b, add32 st.c r.c, add32 st.d r.d,
   add32 st.e r.e, add32 st.f r.f, add32 st.g r.g, add32 st.h r.h⟩

/-- UTF-8 encoding of a string as a byte list (model of `str.encode()`). -/
def utf8Encode (s : String) : List Nat :=
  s.data.flatMap fun c =>
    let cp := c.toNat
    if cp < 0x80 then [cp]
    else if cp < 0x800 then
      [0xC0 ||| (cp >>> 6), 0x80 ||| (cp &&& 0x3F)]
    else if cp < 0x10000 then
      [0xE0 ||| (cp >>> 12), 0x80 ||| ((cp >>> 6) &&& 0x3F), 0x80 ||| (cp &&& 0x3F)]
    else
      [0xF0 ||| (cp >>> 18), 0x80 ||| ((cp >>> 12) &&& 0x3F),
       0x80 ||| ((cp >>> 6) &&& 0x3F), 0x80 ||| (cp &&& 0x3F)]

/-- SHA-256 padding: append `0x80`, zeros, and the 64-bit big-endian bit length. -/
def sha256Pad (bs : List Nat) : List Nat :=
  let len := bs.length
  let padLen := (55 + 64 - len % 64) % 64
  let bitLen := len * 8
  bs ++ [0x80] ++ List.replicate padLen 0 ++
    [(bitLen >>> 56) &&& 255, (bitLen >>> 48) &&& 255, (bitLen >>> 40) &&& 255,
     (bitLen >>> 32) &&& 255, (bitLen >>> 24) &&& 255, (bitLen >>> 16) &&& 255,
     (bitLen >>> 8) &&& 255, bitLen &&& 255]

/-- Group a padded byte list into big-endian 32-bit words. -/
def bytesToWords : List Nat → List Nat
  | b0 :: b1 :: b2 :: b3 :: rest =>
      ((b0 <<< 24) ||| (b1 <<< 16) ||| (b2 <<< 8) ||| b3) :: bytesToWords rest
  | _ => []

/-- Group a word list into 16-word blocks. -/
def wordsToBlocks : List Nat → List (Array Nat)
  | w0 :: w1 :: w2 :: w3 :: w4 :: w5 :: w6 :: w7 ::
    w8 :: w9 :: w10 :: w11 :: w12 :: w13 :: w14 :: w15 :: rest =>
      #[w0, w1, w2, w3, w4, w5, w6, w7, w8, w9, w10, w11, w12, w13, w14, w15] ::
        wordsToBlocks rest
  | _ => []

def hexNibble (n : Nat) : Char :=
  if n < 10 then Char.ofNat (48 + n) else Char.ofNat (87 + n)

/-- Lower-case hex rendering of one 32-bit word. -/
def wordToHex (w : Nat) : List Char :=
  [hexNibble ((w >>> 28) &&& 15), hexNibble ((w >>> 24) &&& 15),
   hexNibble ((w >>> 20) &&& 15), hexNibble ((w >>> 16) &&& 15),
   hexNibble ((w >>> 12) &&& 15), hexNibble ((w >>> 8) &&& 15),
   hexNibble ((w >>> 4) &&& 15), hexNibble (w &&& 15)]

/-- `hashlib.sha256(s.encode()).hexdigest()` as a Lean function. -/
def sha256Hex (s : String) : String :=
  let st := (wordsToBlocks (bytesToWords (sha256Pad (utf8Encode s)))).foldl
    sha256Compress sha256Init
  String.mk (wordToHex st.a ++ wordToHex st.b ++ wordToHex st.c ++ wordToHex st.d ++
    wordToHex st.e ++ wordToHex st.f ++ wordToHex st.g ++ wordToHex st.h)

/-! ## Python values

Tool-call payloads are JSON-shaped Python values (the result of
`json.loads` or an already-structured `dict`).  Numbers are carried as a
decimal mantissa/exponent pair; no claim depends on float arithmetic.
`json`'s `NaN`/`Infinity` extensions are not modelled (any claim they could
touch only observes that a non-object yields an error, which is unchanged). -/

inductive JVal where
  | null : JVal
  | bool (b : Bool) : JVal
  | num (mantissa : Int) (exp10 : Int) (isFloat : Bool) : JVal
  | str (s : String) : JVal
  | arr (xs : List JVal) : JVal
  | obj (fields : List (String × JVal)) : JVal
  deriving Repr

/-- Python truthiness (`bool(v)`) for JSON-shaped values. -/
def JVal.truthy : JVal → Bool
  | .null => false
  | .bool b => b
  | .num m _ _ => m ≠ 0
  | .str s => s ≠ ""
  | .arr xs => !xs.isEmpty
  | .obj fs => !fs.isEmpty

/-- Python `type(v).__name__` for JSON-shaped values; floats are the
numbers written with a fraction or exponent. -/
def JVal.pyTypeName : JVal → String
  | .null => "NoneType"
  | .bool _ => "bool"
  | .num _ _ f => if f then "float" else "int"
  | .str _ => "str"
  | .arr _ => "list"
  | .obj _ => "dict"

/-- Python `str(v)` for the values interpolated into the idempotency key.
Scalars are rendered as Python renders them; the rendering of floats and
containers is schematic (no claim depends on it). -/
def JVal.pyStr : JVal → String
  | .null => "None"
  | .bool b => if b then "True" else "False"
  | .num m e _ => if e = 0 then toString m else toString m ++ "e" ++ toString e
  | .str s => s
  | .arr _ => "<list>"
  | .obj _ => "<dict>"

/-- Integer literal. -/
def JVal.mkInt (m : Int) : JVal := .num m 0 false

/-- `d.get(k)`: Python dicts hold at most one entry per key; `json.loads`
keeps the last duplicate, so lookup takes the last matching entry. -/
def dictGet (d : List (String × JVal)) (k : String) : Option JVal :=
  (d.reverse.find? (fun p => p.1 == k)).map (fun p => p.2)

/-- `d.get(k, default)`. -/
def dictGetD (d : List (String × JVal)) (k : String) (dflt : JVal) : JVal :=
  (dictGet d k).getD dflt

/-- `d.get(k)` with Python's `None` for absent keys. -/
def dictGetN (d : List (String × JVal)) (k : String) : JVal :=
  dictGetD d k .null

/-! ## Python string helpers -/

def isPyWhitespace (c : Char) : Bool :=
  c == ' ' || c == '\t' || c == '\n' || c == '\r' ||
    c == Char.ofNat 11 || c == Char.ofNat 12

/-- Python `str.strip()`. -/
def pyStrip (s : String) : String :=
  String.mk ((s.data.dropWhile isPyWhitespace).reverse.dropWhile isPyWhitespace).reverse

/-- Python `str.lower()` (the payloads in scope are ASCII). -/
def pyLower (s : String) : String :=
  String.mk (s.data.map Char.toLower)

/-- Python `e.split(":")[0]`. -/
def beforeFirstColon (s : String) : String :=
  String.mk (s.data.takeWhile (fun c => c ≠ ':'))

/-- Strip `pat` from the front of `cs`, if present. -/
def dropPfx : List Char → List Char → Option (List Char)
  | [], cs => some cs
  | _, [] => none
  | p :: ps, c :: cs => if c == p then dropPfx ps cs else none

/-- Replace every (non-overlapping, left-to-right) occurrence of `pat`,
fuelled by input length. -/
def replaceLoop (pat rep : List Char) : Nat → List Char → List Char
  | _, [] => []
  | 0, cs => cs
  | fuel + 1, c :: cs =>
    match dropPfx pat (c :: cs) with
    | some rest => rep ++ replaceLoop pat rep fuel rest
    | none => c :: replaceLoop pat rep fuel cs

/-- Python `s.replace(pat, rep)` (the source only ever replaces the
non-empty pattern `"Z"`, so the empty-pattern behaviour is irrelevant). -/
def pyReplace (s pat rep : String) : String :=
  if pat = "" then s
  else String.mk (replaceLoop pat.data rep.data (s.data.length + 1) s.data)

/-- Python `s.split(c)` for a one-character separator. -/
def splitChar (c : Char) : List Char → List (List Char)
  | [] => [[]]
  | x :: rest =>
    match splitChar c rest with
    | [] => [[]]
    | seg :: segs => if x == c then [] :: seg :: segs else (x :: seg) :: segs

/-! ## JSON parsing (model of `json.loads`) -/

def jsonSkipWs (cs : List Char) : List Char :=
  cs.dropWhile (fun c => c == ' ' || c == '\t' || c == '\n' || c == '\r')

def hexDigitVal (c : Char) : Option Nat :=
  if c.isDigit then some (c.toNat - 48)
  else if 'a' ≤ c && c ≤ 'f' then some (c.toNat - 87)
  else if 'A' ≤ c && c ≤ 'F' then some (c.toNat - 55)
  else none

/-- Parse the remainder of a JSON string literal (after the opening
quote), fuelled by remaining input length. -/
def jsonParseStringRest : Nat → List Char → Option (String × List Char)
  | 0, _ => none
  | _, [] => none
  | fuel + 1, c :: rest =>
    if c == '"' then some ("", rest)
    else if c == '\\' then
      match rest with
      | [] => none
      | e :: rest2 =>
        let unescaped : Option (Char × List Char) :=
          if e == '"' then some ('"', rest2)
          else if e == '\\' then some ('\\', rest2)
          else if e == '/' then some ('/', rest2)
          else if e == 'b' then some (Char.ofNat 8, rest2)
          else if e == 'f' then some (Char.ofNat 12, rest2)
          else if e == 'n' then some ('\n', rest2)
          else if e == 'r' then some ('\r', rest2)
          else if e == 't' then some ('\t', rest2)
          else if e == 'u' then
            match rest2 with
            | h1 :: h2 :: h3 :: h4 :: rest3 =>
              match hexDigitVal h1, hexDigitVal h2, hexDigitVal h3, hexDigitVal h4 with
              | some a, some b, some c, some d =>
                some (Char.ofNat (a * 4096 + b * 256 + c * 16 + d), rest3)
              | _, _, _, _ => none
            | _ => none
          else none
        match unescaped with
        | some (ch, rest3) =>
          match jsonParseStringRest fuel rest3 with
          | some (s, rest4) => some (String.mk (ch :: s.data), rest4)
          | none => none
        | none => none
    else if c.toNat < 32 then none
    else
      match jsonParseStringRest fuel rest with
      | some (s, rest2) => some (String.mk (c :: s.data), rest2)
      | none => none

/-- Split off a leading run of decimal digits. -/
def jsonTakeDigits (cs : List Char) : List Char × List Char :=
  (cs.takeWhile Char.isDigit, cs.dropWhile Char.isDigit)

def digitsVal (ds : List Char) : Nat :=
  ds.foldl (fun acc c => acc * 10 + (c.toNat - 48)) 0

/-- Assemble a parsed JSON number from its pieces. -/
def jsonMkNum (neg : Bool) (intDs fracDs : List Char) (ex : Int) (isFloat : Bool) : JVal :=
  let m : Int := ((digitsVal intDs * 10 ^ fracDs.length + digitsVal fracDs : Nat) : Int)
  .num (if neg then -m else m) (if isFloat then ex - (fracDs.length : Int) else 0) isFloat

/-- Parse the optional exponent suffix of a JSON number. -/
def jsonParseExpSuffix (neg : Bool) (intDs fracDs : List Char) (isFrac : Bool)
    (cs : List Char) : Option (JVal × List Char) :=
  match cs with
  | 'e' :: rest | 'E' :: rest =>
    let (esign, rest2) : Int × List Char := match rest with
      | '+' :: r => (1, r)
      | '-' :: r => (-1, r)
      | _ => (1, rest)
    let (eds, rest3) := jsonTakeDigits rest2
    if eds.isEmpty then none
    else some (jsonMkNum neg intDs fracDs (esign * (digitsVal eds : Int)) true, rest3)
  | _ => some (jsonMkNum neg intDs fracDs 0 isFrac, cs)

/-- Parse a JSON number starting at `cs` (which begins with `-` or a digit). -/
def jsonParseNumber (cs : List Char) : Option (JVal × List Char) :=
  let (neg, cs1) : Bool × List Char := match cs with
    | '-' :: rest => (true, rest)
    | _ => (false, cs)
  let (intDs, cs2) := jsonTakeDigits cs1
  if intDs.isEmpty then none
  else if intDs.length > 1 && intDs.headD '0' == '0' then none
  else
    match cs2 with
    | '.' :: rest =>
      let (fracDs, cs3) := jsonTakeDigits rest
      if fracDs.isEmpty then none
      else jsonParseExpSuffix neg intDs fracDs true cs3
    | _ => jsonParseExpSuffix neg intDs [] false cs2

mutual

/-- Recursive-descent JSON value parser, fuelled by remaining input length. -/
def jsonParseValue : Nat → List Char → Option (JVal × List Char)
  | 0, _ => none
  | fuel + 1, cs =>
    match cs with
    | 't' :: 'r' :: 'u' :: 'e' :: rest => some (.bool true, rest)
    | 'f' :: 'a' :: 'l' :: 's' :: 'e' :: rest => some (.bool false, rest)
    | 'n' :: 'u' :: 'l' :: 'l' :: rest => some (.null, rest)
    | '"' :: rest => (jsonParseStringRest (rest.length + 1) rest).map (fun p => (.str p.1, p.2))
    | '[' :: rest =>
      match jsonSkipWs rest with
      | ']' :: rest2 => some (.arr [], rest2)
      | rest2 =>
        match jsonParseItems fuel rest2 with
        | some (xs, rest3) =>
          match jsonSkipWs rest3 with
          | ']' :: rest4 => some (.arr xs, rest4)
          | _ => none
        | none => none
    | '{' :: rest =>
      match jsonSkipWs rest with
      | '}' :: rest2 => some (.obj [], rest2)
      | rest2 =>
        match jsonParseMembers fuel rest2 with
        | some (fs, rest3) =>
          match jsonSkipWs rest3 with
          | '}' :: rest4 => some (.obj fs, rest4)
          | _ => none
        | none => none
    | c :: _ => if c == '-' || c.isDigit then jsonParseNumber cs else none
    | [] => none

/-- Comma-separated JSON array items (at least one). -/
def jsonParseItems : Nat → List Char → Option (List JVal × List Char)
  | 0, _ => none
  | fuel + 1, cs =>
    match jsonParseValue fuel cs with
    | some (v, rest) =>
      match jsonSkipWs rest with
      | ',' :: rest2 =>
        match jsonParseItems fuel (jsonSkipWs rest2) with
        | some (xs, rest3) => some (v :: xs, rest3)
        | none => none
      | _ => some ([v], rest)
    | none => none

/-- Comma-separated JSON object members (at least one). -/
def jsonParseMembers : Nat → List Char → Option (List (String × JVal) × List Char)
  | 0, _ => none
  | fuel + 1, cs =>
    match cs with
    | '"' :: rest =>
      match jsonParseStringRest (rest.length + 1) rest with
      | some (k, rest2) =>
        match jsonSkipWs rest2 with
        | ':' :: rest3 =>
          match jsonParseValue fuel (jsonSkipWs rest3) with
          | some (v, rest4) =>
            match jsonSkipWs rest4 with
            | ',' :: rest5 =>
              match jsonParseMembers fuel (jsonSkipWs rest5) with
              | some (fs, rest6) => some ((k, v) :: fs, rest6)
              | none => none
            | _ => some ([(k, v)], rest4)
          | none => none
        | _ => none
      | none => none
    | _ => none

end

/-- `json.loads`: a whole document must parse with only whitespace left.
Error messages are schematic (the source only ever surfaces them inside a
larger string); `json`'s non-standard `NaN`/`Infinity` literals are not
modelled. -/
def jsonLoads (s : String) : Except String JVal :=
  let cs := jsonSkipWs s.data
  match jsonParseValue (cs.length + 1) cs with
  | some (v, rest) =>
    if (jsonSkipWs rest).isEmpty then .ok v
    else .error "Extra data"
  | none => .error "Expecting value"

/-! ## Email syntax (model of `re.match` with the source's pattern)

The pattern is `^[a-zA-Z0-9._%+-]+@[a-zA-Z0-9.-]+\.[a-zA-Z]\x7b2,\x7d$`.
Both character classes exclude `@`, so a match decomposes the string as
`local @ domain . top` with the top label all-alphabetic of length at least
two; backtracking regex semantics accept exactly when some decomposition of
the domain works.  (The validator only matches already-stripped strings, so
`$` matching before a trailing newline never arises.) -/

def isEmailLocalChar (c : Char) : Bool :=
  c.isAlpha || c.isDigit || c == '.' || c == '_' || c == '%' || c == '+' || c == '-'

def isEmailDomainChar (c : Char) : Bool :=
  c.isAlpha || c.isDigit || c == '.' || c == '-'

/-- Does the part after `@` match `[a-zA-Z0-9.-]+\.[a-zA-Z]\x7b2,\x7d`? -/
def emailDomainOk (cs : List Char) : Bool :=
  (List.range cs.length).any fun i =>
    decide (1 ≤ i) &&
      (match cs.drop i with
       | '.' :: top =>
         (cs.take i).all isEmailDomainChar && decide (2 ≤ top.length) &&
           top.all Char.isAlpha
       | _ => false)

/-- `re.match(email_regex, s)` as a Bool. -/
def emailRegexMatch (s : String) : Bool :=
  match splitChar '@' s.data with
  | [l, d] => !l.isEmpty && l.all isEmailLocalChar && emailDomainOk d
  | _ => false

/-! ## `datetime.fromisoformat` (model)

The source targets the pre-3.11 `fromisoformat` grammar (it rewrites `Z`
to `+00:00` before parsing, which that grammar requires):
`YYYY-MM-DD` optionally followed by one separator character and
`HH[:MM[:SS[.fff[fff]]]][±HH:MM[:SS[.ffffff]]]`, all components
range-checked.  Crucially, the offset is optional: naive timestamps
parse. -/

def digit2 (a b : Char) : Option Nat :=
  if a.isDigit && b.isDigit then some ((a.toNat - 48) * 10 + (b.toNat - 48)) else none

def isLeapYear (y : Nat) : Bool :=
  y % 4 == 0 && (y % 100 != 0 || y % 400 == 0)

def daysInMonth (y m : Nat) : Nat :=
  if m == 2 then (if isLeapYear y then 29 else 28)
  else if m == 4 || m == 6 || m == 9 || m == 11 then 30
  else 31

/-- Parse `HH[:MM[:SS[.fff[fff]]]]` exactly, with range checks; returns
`true` on the whole-list match.  Used for both the time and (minus the
bare-`HH` form, see `isoTzOk`) the offset. -/
def isoTimeCompsOk (cs : List Char) : Bool :=
  match cs with
  | [h1, h2] =>
    (digit2 h1 h2).any (· < 24)
  | [h1, h2, ':', m1, m2] =>
    (digit2 h1 h2).any (· < 24) && (digit2 m1 m2).any (· < 60)
  | [h1, h2, ':', m1, m2, ':', s1, s2] =>
    (digit2 h1 h2).any (· < 24) && (digit2 m1 m2).any (· < 60) &&
      (digit2 s1 s2).any (· < 60)
  | h1 :: h2 :: ':' :: m1 :: m2 :: ':' :: s1 :: s2 :: '.' :: fs =>
    (digit2 h1 h2).any (· < 24) && (digit2 m1 m2).any (· < 60) &&
      (digit2 s1 s2).any (· < 60) &&
      (fs.length == 3 || fs.length == 6) && fs.all Char.isDigit
  | _ => false

/-- Offset part after the sign: `HH:MM[:SS[.ffffff]]` (a bare `HH` is not
accepted for offsets in this grammar). -/
def isoTzOk (cs : List Char) : Bool :=
  decide (5 ≤ cs.length) && isoTimeCompsOk cs

/-- The time-of-day part, optionally carrying a `+`/`-` offset. -/
def isoTimeOk (cs : List Char) : Bool :=
  match cs.findIdx? (fun c => c == '+' || c == '-') with
  | none => isoTimeCompsOk cs
  | some i => isoTimeCompsOk (cs.take i) && isoTzOk (cs.drop (i + 1))

/-- Does the time part carry an explicit UTC offset? -/
def isoTimeHasOffset (cs : List Char) : Bool :=
  (cs.findIdx? (fun c => c == '+' || c == '-')).isSome

/-- `datetime.fromisoformat(s)` succeeds. -/
def pyFromIsoformatOk (s : String) : Bool :=
  match s.data with
  | y1 :: y2 :: y3 :: y4 :: '-' :: m1 :: m2 :: '-' :: d1 :: d2 :: rest =>
    (match digit2 y1 y2, digit2 m1 m2, digit2 d1 d2 with
     | some yh, some m, some d =>
       let y := yh * 100 + ((y3.toNat - 48) * 10 + (y4.toNat - 48))
       y3.isDigit && y4.isDigit && decide (1 ≤ y) && decide (1 ≤ m) &&
         decide (m ≤ 12) && decide (1 ≤ d) && decide (d ≤ daysInMonth y m) &&
         (match rest with
          | [] => true
          | _ :: timeCs => !timeCs.isEmpty && isoTimeOk timeCs)
     | _, _, _ => false)
  | _ => false

/-- The `start_time`/`end_time` field validator: accept `v` iff
`datetime.fromisoformat(v.replace("Z", "+00:00"))` succeeds. -/
def validate_iso8601 (v : String) : Bool :=
  pyFromIsoformatOk (pyReplace v "Z" "+00:00")

/-! ## `IntentService` (`app/services/intent_service.py`)

`CalendarEventIntent` is the pydantic model; `validate_calendar_intent`
mirrors the service method: required-field check, attendee-source
selection, idempotency-key digest, then schema validation.  Pydantic is
modelled field-by-field in declaration order, collecting one error string
per failed field formatted `"<field>: <message>"`; lax coercions the
payloads in scope never exercise (e.g. `"1"` as a bool) are not modelled. -/

structure CalendarEventIntent where
  action : String
  title : String
  description : Option String
  start_time : String
  end_time : String
  timezone : String
  attendees : List String
  send_email : Bool
  intent_id : Option String
  call_id : Option String
  org_id : Option String
  deriving Repr, DecidableEq

structure ValidationResult where
  is_valid : Bool
  intent : Option CalendarEventIntent
  errors : List String
  raw_input : Option (List (String × JVal))
  deriving Repr

/-- Field check for a required `str` pydantic field with length bounds. -/
def pydStrField (name : String) (minLen maxLen : Nat) : JVal → Except (List String) String
  | .str s =>
    if s.length < minLen then
      .error [name ++ ": String should have at least " ++ toString minLen ++ " character"]
    else if maxLen < s.length then
      .error [name ++ ": String should have at most " ++ toString maxLen ++ " characters"]
    else .ok s
  | _ => .error [name ++ ": Input should be a valid string"]

/-- Field check for a required `str` pydantic field without length
bounds (`timezone`). -/
def pydPlainStrField (name : String) : JVal → Except (List String) String
  | .str s => .ok s
  | _ => .error [name ++ ": Input should be a valid string"]

/-- Field check for an `Optional[str]` pydantic field. -/
def pydOptStrField (name : String) : JVal → Except (List String) (Option String)
  | .null => .ok none
  | .str s => .ok (some s)
  | _ => .error [name ++ ": Input should be a valid string"]

/-- The `start_time`/`end_time` fields: `str` typed, then the
`validate_iso8601` field validator. -/
def pydIsoField (name : String) : JVal → Except (List String) String
  | .str s =>
    if validate_iso8601 s then .ok s
    else
      .error [name ++ ": Value error, Invalid ISO-8601 datetime: " ++ s ++
        ". Expected format: YYYY-MM-DDTHH:MM:SSZ"]
  | _ => .error [name ++ ": Input should be a valid string"]

/-- Item-wise `List[str]` check for the `attendees` field. -/
def pydStrItems (name : String) (i : Nat) : List JVal → Except (List String) (List String)
  | [] => .ok []
  | .str s :: rest => (pydStrItems name (i + 1) rest).map (fun ss => s :: ss)
  | _ :: _ => .error [name ++ "." ++ toString i ++ ": Input should be a valid string"]

/-- The `validate_attendees` field validator: strip + lower-case each
address, reject at the first one failing the email pattern. -/
def validate_attendees (name : String) : List String → Except (List String) (List String)
  | [] => .ok []
  | e :: rest =>
    let e := pyLower (pyStrip e)
    if emailRegexMatch e then (validate_attendees name rest).map (fun es => e :: es)
    else .error [name ++ ": Value error, Invalid email format: " ++ e]

/-- The `attendees` field: `List[str]` typed, `min_length=1`, then the
field validator. -/
def pydAttendeesField (name : String) : JVal → Except (List String) (List String)
  | .arr xs =>
    match pydStrItems name 0 xs with
    | .error es => .error es
    | .ok ss =>
      if ss.isEmpty then .error [name ++ ": List should have at least 1 item"]
      else validate_attendees name ss
  | _ => .error [name ++ ": Input should be a valid list"]

/-- The `send_email` field (`bool`, payloads in scope are genuine bools). -/
def pydBoolField (name : String) : JVal → Except (List String) Bool
  | .bool b => .ok b
  | _ => .error [name ++ ": Input should be a valid boolean"]

/-- Accumulate pydantic field results, collecting all errors in field
order. -/
def pydCombine {α β : Type} (a : Except (List String) α) (b : Except (List String) β) :
    Except (List String) (α × β) :=
  match a, b with
  | .ok x, .ok y => .ok (x, y)
  | .error e1, .error e2 => .error (e1 ++ e2)
  | .error e1, .ok _ => .error e1
  | .ok _, .error e2 => .error e2

/-- `CalendarEventIntent(**normalized_data)`: validate every field of the
normalized payload, collecting errors across fields as pydantic does.
The `action` field is always the constant the service inserts, so its
validator cannot fail and is not represented. -/
def buildCalendarEventIntent (title description start_time end_time tz attendees
    send_email intent_id : JVal) (call_id org_id : Option String) :
    Except (List String) CalendarEventIntent :=
  match pydCombine (pydStrField "title" 1 255 title)
      (pydCombine (pydOptStrField "description" description)
        (pydCombine (pydIsoField "start_time" start_time)
          (pydCombine (pydIsoField "end_time" end_time)
            (pydCombine (pydPlainStrField "timezone" tz)
              (pydCombine (pydAttendeesField "attendees" attendees)
                (pydCombine (pydBoolField "send_email" send_email)
                  (pydOptStrField "intent_id" intent_id))))))) with
  | .error es => .error es
  | .ok (t, d, st, et, tzs, atts, se, iid) =>
    .ok { action := "create_calendar_event", title := t, description := d,
          start_time := st, end_time := et, timezone := tzs, attendees := atts,
          send_email := se, intent_id := iid, call_id := call_id, org_id := org_id }

/-- The required-field names checked in STEP 1, in source order. -/
def requiredFields : List String := ["title", "start_time", "end_time", "attendee_email"]

/-- STEP 2's attendee-source selection: the `attendees` value, or the
single `attendee_email` wrapped into a one-element list when `attendees`
is falsy. -/
def selectAttendees (tool_args : List (String × JVal)) : JVal :=
  let attendees := dictGetD tool_args "attendees" (.arr [])
  if !attendees.truthy && (dictGetN tool_args "attendee_email").truthy then
    .arr [dictGetN tool_args "attendee_email"]
  else attendees

/-- `attendees[0] if attendees else ''` — Python indexing, which raises
`TypeError`/`KeyError` on truthy non-sequences. -/
def pyIndexZero : JVal → Except String JVal
  | .arr (x :: _) => .ok x
  | .arr [] => .error "IndexError: list index out of range"
  | .str s =>
    match s.data with
    | c :: _ => .ok (.str (String.mk [c]))
    | [] => .error "IndexError: string index out of range"
  | .obj _ => .error "KeyError: 0"
  | _ => .error "TypeError: object is not subscriptable"

def firstAttendeeRaw (attendees : JVal) : Except String JVal :=
  if attendees.truthy then pyIndexZero attendees else .ok (.str "")

/-- The raw idempotency-key string
`f"{title}|{start_time}|{end_time}|{attendees[0] if attendees else ''}"`.
Note it interpolates the values as supplied, before any normalization. -/
def idempotencyKey (tool_args : List (String × JVal)) (firstAtt : JVal) : String :=
  (dictGetN tool_args "title").pyStr ++ "|" ++
    (dictGetN tool_args "start_time").pyStr ++ "|" ++
    (dictGetN tool_args "end_time").pyStr ++ "|" ++ firstAtt.pyStr

/-- `tool_args.get("intent_id") or sha256(key).hexdigest()[:16]`. -/
def intentIdValue (tool_args : List (String × JVal)) (key : String) : JVal :=
  let supplied := dictGetN tool_args "intent_id"
  if supplied.truthy then supplied else .str ((sha256Hex key).take 16)

/-- `IntentService.validate_calendar_intent`.  The `Except` layer carries
exceptions that escape the method (only the `attendees[0]` indexing of a
truthy non-sequence can raise; every validation failure is returned, not
raised). -/
def validate_calendar_intent (tool_args : List (String × JVal))
    (call_id org_id : Option String) : Except String ValidationResult :=
  -- STEP 1: required fields (absent or falsy both count as missing)
  let missing := requiredFields.filter (fun f => !(dictGetN tool_args f).truthy)
  if !missing.isEmpty then
    .ok { is_valid := false, intent := none,
          errors := ["Missing required fields: " ++ String.intercalate ", " missing],
          raw_input := some tool_args }
  else
    -- STEP 2: attendee selection and deterministic intent id
    let attendees := selectAttendees tool_args
    match firstAttendeeRaw attendees with
    | .error e => .error e
    | .ok firstAtt =>
      let key := idempotencyKey tool_args firstAtt
      let intent_id := intentIdValue tool_args key
      -- STEP 3: pydantic validation of the normalized payload
      match buildCalendarEventIntent (dictGetD tool_args "title" (.str ""))
          (dictGetD tool_args "description" (.str ""))
          (dictGetD tool_args "start_time" (.str ""))
          (dictGetD tool_args "end_time" (.str ""))
          (dictGetD tool_args "timezone" (.str "UTC"))
          attendees (dictGetD tool_args "send_email" (.bool true))
          intent_id call_id org_id with
      | .ok intent =>
        .ok { is_valid := true, intent := some intent, errors := [],
              raw_input := some tool_args }
      | .error errs =>
        .ok { is_valid := false, intent := none, errors := errs,
              raw_input := some tool_args }

/-- The identity-computation slice of `validate_calendar_intent` (STEP 2):
attendee-source selection, first-attendee lookup, idempotency-key digest —
exactly the expressions the service evaluates, composed. -/
def computedIntentId (tool_args : List (String × JVal)) : Except String JVal :=
  (firstAttendeeRaw (selectAttendees tool_args)).map
    (fun fa => intentIdValue tool_args (idempotencyKey tool_args fa))

/-- `IntentService.parse_tool_call_safely`: raw data is either Python
`None`, an already-structured dict, a string, or some other object (only
its type name is observable in this method). -/
inductive RawData where
  | pyNone : RawData
  | dict (d : List (String × JVal)) : RawData
  | str (s : String) : RawData
  | other (typeName : String) : RawData

def parse_tool_call_safely (raw : RawData) :
    Option (List (String × JVal)) × Option String :=
  match raw with
  | .pyNone => (none, some "Tool call data is None")
  | .dict d => (some d, none)
  | .str s =>
    let cleaned := pyStrip s
    if cleaned = "" then (none, some "Empty tool call data")
    else
      match jsonLoads cleaned with
      | .ok (.obj d) => (some d, none)
      | .ok v => (none, some ("Expected object, got " ++ v.pyTypeName))
      | .error e => (none, some ("Invalid JSON: " ++ e))
  | .other t => (none, some ("Unexpected data type: " ++ t))

/-- `IntentService.generate_clarification_message`. -/
def generate_clarification_message (vr : ValidationResult) : String :=
  if vr.is_valid then ""
  else
    "VALIDATION_FAILED: Cannot create appointment. " ++
      String.intercalate "; " vr.errors ++
      ". Please ask the user to provide the missing or correct information."

/-! ## `ExecutionService` (`app/services/execution_service.py`)

The service's mutable state is the `_executions` dict, the `_locks`
key set and the configured webhook URL.  `asyncio` locks serialize all
work per `intent_id`, so one `execute_calendar_intent` call is modelled as
an atomic state transition; the HTTP exchange with the Zapier collaborator
is an environment parameter (`WebhookOutcome`).  The transition also
returns ghost observables: how many times the external webhook was
actually invoked, and every record written into `_executions`, in order. -/

inductive ExecutionStatus where
  | pending | executing | executed | failed | duplicate
  deriving Repr, DecidableEq

/-- The `ExecutionResult` record stored in the ledger and returned to the
caller.  `executed_at` is `datetime.utcnow().isoformat() if success else
None`, with the timestamp text abstracted. -/
structure ExecResult where
  success : Bool
  status : ExecutionStatus
  intent_id : String
  zapier_response : JVal
  error : Option String
  is_duplicate : Bool
  executed_at : Option Unit
  deriving Repr

/-- The `ExecutionResult.__init__` defaulting: `zapier_response or \x7b\x7d`
and the timestamp guard. -/
def mkExecResult (success : Bool) (status : ExecutionStatus) (intent_id : String)
    (zapier_response : Option JVal := none) (error : Option String := none)
    (is_duplicate : Bool := false) : ExecResult :=
  { success := success, status := status, intent_id := intent_id,
    zapier_response :=
      match zapier_response with
      | some r => if r.truthy then r else .obj []
      | none => .obj [],
    error := error, is_duplicate := is_duplicate,
    executed_at := if success then some () else none }

/-- The ordered-dict state of the service plus its lock table. -/
structure ExecutionServiceState where
  executions : List (String × ExecResult)
  locks : List String
  webhook_url : String
  deriving Repr

/-- Python dict update: overwrite in place, else append (dict keys are
unique, so replacing the first occurrence is replacing the occurrence). -/
def dictSet : List (String × ExecResult) → String → ExecResult →
    List (String × ExecResult)
  | [], k, v => [(k, v)]
  | p :: rest, k, v => if p.1 == k then (k, v) :: rest else p :: dictSet rest k v

def dictFind (d : List (String × ExecResult)) (k : String) : Option ExecResult :=
  (d.find? (fun p => p.1 == k)).map (fun p => p.2)

def dictDel (d : List (String × ExecResult)) (k : String) : List (String × ExecResult) :=
  d.filter (fun p => p.1 != k)

/-- One HTTP exchange with the Zapier webhook, as seen by the service:
either a transport-level exception (timeout, connection error) or a
response with a status code, raw text and optionally-JSON body. -/
inductive WebhookOutcome where
  | transportError (msg : String)
  | response (status : Nat) (bodyJson : Option JVal) (bodyText : String)
  deriving Repr

/-- `intent.intent_id or "unknown"`. -/
def orUnknown : Option String → String
  | some s => if s = "" then "unknown" else s
  | none => "unknown"

/-- `_call_zapier_webhook`: raises (`.error`) when unconfigured, on
transport failure, and on a non-2xx status; otherwise builds the
`EXECUTED` result.  The returned flag records whether the HTTP request
was actually issued. -/
def call_zapier_webhook (webhook_url : String) (out : WebhookOutcome)
    (intent : CalendarEventIntent) : Except String ExecResult × Bool :=
  if webhook_url = "" then (.error "ZAPIER_WEBHOOK_URL not configured", false)
  else
    match out with
    | .transportError msg => (.error msg, true)
    | .response status bodyJson bodyText =>
      if status == 200 || status == 201 || status == 202 then
        let responseJson := match bodyJson with
          | some j => j
          | none => .obj [("status", .str "accepted"), ("raw", .str bodyText)]
        (.ok (mkExecResult true .executed (orUnknown intent.intent_id)
          (some responseJson)), true)
      else
        (.error ("Zapier returned " ++ toString status ++ ": " ++ bodyText), true)

/-- The bundle returned by one atomic `execute_calendar_intent` run. -/
structure ExecuteOutcome where
  result : ExecResult
  state : ExecutionServiceState
  webhookCalls : Nat
  writes : List ExecResult
  deriving Repr

/-- STEP 2 through STEP 5 of `execute_calendar_intent`: mark `EXECUTING`,
invoke the webhook, store the final record. -/
def executeFresh (st : ExecutionServiceState) (out : WebhookOutcome)
    (intent : CalendarEventIntent) (iid : String) : ExecuteOutcome :=
  let executingRec := mkExecResult false .executing iid
  let st1 := { st with executions := dictSet st.executions iid executingRec }
  match call_zapier_webhook st1.webhook_url out intent with
  | (.ok result, called) =>
    { result := result,
      state := { st1 with executions := dictSet st1.executions iid result },
      webhookCalls := if called then 1 else 0,
      writes := [executingRec, result] }
  | (.error e, called) =>
    let result := mkExecResult false .failed iid none (some e)
    { result := result,
      state := { st1 with executions := dictSet st1.executions iid result },
      webhookCalls := if called then 1 else 0,
      writes := [executingRec, result] }

/-- `execute_calendar_intent`, an atomic transition thanks to the
per-identity lock (acquiring the lock creates it on first use). -/
def execute_calendar_intent (st : ExecutionServiceState) (out : WebhookOutcome)
    (intent : CalendarEventIntent) : ExecuteOutcome :=
  let iid := orUnknown intent.intent_id
  let st := { st with
    locks := if st.locks.contains iid then st.locks else st.locks ++ [iid] }
  -- STEP 1: duplicate check
  match dictFind st.executions iid with
  | some existing =>
    if existing.status = .executed ∨ existing.status = .executing then
      { result := mkExecResult true .duplicate iid none none true,
        state := st, webhookCalls := 0, writes := [] }
    else executeFresh st out intent iid
  | none => executeFresh st out intent iid

/-- A sequence of submissions of the same intent: fold
`execute_calendar_intent` over the successive webhook outcomes, returning
the final state and the total number of external webhook invocations. -/
def executeMany : ExecutionServiceState → List WebhookOutcome → CalendarEventIntent →
    ExecutionServiceState × Nat
  | st, [], _ => (st, 0)
  | st, out :: outs, intent =>
    let e := execute_calendar_intent st out intent
    let rest := executeMany e.state outs intent
    (rest.1, e.webhookCalls + rest.2)

/-- `ExecutionService.was_executed` (`None` lookups find nothing). -/
def was_executed (st : ExecutionServiceState) (intent_id : Option String) : Bool :=
  match intent_id with
  | none => false
  | some iid =>
    match dictFind st.executions iid with
    | none => false
    | some r => r.status = .executed ∨ r.status = .duplicate

/-- `ExecutionService.get_execution_status`. -/
def get_execution_status (st : ExecutionServiceState) (intent_id : String) :
    Option ExecResult :=
  dictFind st.executions intent_id

/-- `ExecutionService.reset_execution`: delete the record and its lock. -/
def reset_execution (st : ExecutionServiceState) (intent_id : String) :
    Bool × ExecutionServiceState :=
  if (dictFind st.executions intent_id).isSome then
    (true, { st with executions := dictDel st.executions intent_id,
                     locks := st.locks.filter (fun k => k != intent_id) })
  else (false, st)

/-! ## `RealtimeHandler` (`app/services/realtime_handler.py`)

`handle_tool_call` routes by tool name and converts any exception escaping
a route handler into a retryable error dict.  The database collaborator
(best-effort, excluded from the core) and the possibility of an unexpected
runtime fault inside a handler are environment parameters. -/

structure HandlerEnv where
  /-- Outcome of the best-effort `Appointment` insert (STEP 4). -/
  dbSave : Except String Unit
  /-- Outcome of the best-effort post-execution status update. -/
  dbUpdate : Except String Unit
  /-- The external webhook exchange used if execution is reached. -/
  webhook : WebhookOutcome
  /-- Models an unexpected exception raised inside a route handler before
  it produces a result (Python lets any statement raise); `none` for a
  normal run. -/
  fault : Option String

def jStrOpt : Option String → JVal
  | some s => .str s
  | none => .null

/-- The value bundle a handler run produces: the tool-result dict (or an
uncaught exception), the execution-service state it left behind, and the
ghost webhook-call count. -/
structure HandlerOutcome where
  result : Except String (List (String × JVal))
  state : ExecutionServiceState
  webhookCalls : Nat

/-- `_handle_create_appointment`. -/
def handle_create_appointment (st : ExecutionServiceState) (env : HandlerEnv)
    (tool_args : RawData) (call_id org_id : Option String) : HandlerOutcome :=
  -- STEP 1: parse arguments safely
  match parse_tool_call_safely tool_args with
  | (_, some parse_error) =>
    { result := .ok [("success", .bool false),
        ("error", .str ("Invalid tool arguments: " ++ parse_error)),
        ("should_retry", .bool true),
        ("clarification", .str "Please provide valid appointment details.")],
      state := st, webhookCalls := 0 }
  | (none, none) =>
    -- unreachable: the parser always returns data or an error; Python
    -- would raise in the subsequent `in` check
    { result := .error "TypeError: argument of type NoneType is not iterable",
      state := st, webhookCalls := 0 }
  | (some parsed_args, none) =>
    -- STEP 2: validate with strict schema
    match validate_calendar_intent parsed_args call_id org_id with
    | .error e => { result := .error e, state := st, webhookCalls := 0 }
    | .ok validation_result =>
      if !validation_result.is_valid then
        { result := .ok [("success", .bool false),
            ("error", .str (String.intercalate "; " validation_result.errors)),
            ("should_retry", .bool true),
            ("clarification", .str (generate_clarification_message validation_result)),
            ("missing_fields", .arr (validation_result.errors.map
              (fun e => .str (beforeFirstColon e))))],
          state := st, webhookCalls := 0 }
      else
        match validation_result.intent with
        | none =>
          -- unreachable: a valid result carries its intent
          { result := .error "AttributeError", state := st, webhookCalls := 0 }
        | some intent =>
          -- STEP 3: duplicate check
          if was_executed st intent.intent_id then
            { result := .ok [("success", .bool true), ("is_duplicate", .bool true),
                ("message", .str "This appointment was already created."),
                ("appointment_id", jStrOpt intent.intent_id)],
              state := st, webhookCalls := 0 }
          else
            -- STEP 4: best-effort database save (failure logged, not raised)
            let db_appointment_id : Option String :=
              match env.dbSave with
              | .ok _ => intent.intent_id
              | .error _ => none
            -- STEP 5: execute via Zapier (the best-effort status update
            -- afterwards touches only the excluded storage collaborator)
            let exec := execute_calendar_intent st env.webhook intent
            if !exec.result.success then
              -- `execution_result.error or "Failed to create appointment"`
              let errText := match exec.result.error with
                | some e => if e ≠ "" then e else "Failed to create appointment"
                | none => "Failed to create appointment"
              { result := .ok [("success", .bool false),
                  ("error", .str errText),
                  ("should_retry", .bool true),
                  ("clarification", .str ("I was unable to send the calendar invite. " ++
                    "The appointment was saved but please try again.")),
                  ("appointment_id", jStrOpt db_appointment_id)],
                state := exec.state, webhookCalls := exec.webhookCalls }
            else
              match intent.attendees with
              | [] =>
                { result := .error "IndexError: list index out of range",
                  state := exec.state, webhookCalls := exec.webhookCalls }
              | primary :: _ =>
                { result := .ok [("success", .bool true),
                    ("message", .str ("Appointment created and confirmation email sent to "
                      ++ primary)),
                    -- `db_appointment_id or intent.intent_id`
                    ("appointment_id",
                      match db_appointment_id with
                      | some s => if s ≠ "" then .str s else jStrOpt intent.intent_id
                      | none => jStrOpt intent.intent_id),
                    ("calendar_link", dictGetN
                      (match exec.result.zapier_response with
                       | .obj d => d
                       | _ => []) "calendar_link"),
                    ("email_sent", .bool true),
                    ("attendee_email", .str primary),
                    ("title", .str intent.title),
                    ("start_time", .str intent.start_time),
                    ("end_time", .str intent.end_time)],
                  state := exec.state, webhookCalls := exec.webhookCalls }

/-- `_handle_escalate_call` (raises `AttributeError` when handed a
non-dict, as `tool_args.get` would). -/
def handle_escalate_call (tool_args : RawData) : Except String (List (String × JVal)) :=
  match tool_args with
  | .dict d =>
    .ok [("success", .bool true), ("message", .str "Call escalated to human agent"),
         ("urgency", dictGetD d "urgency" (.str "medium"))]
  | _ => .error "AttributeError: tool_args has no attribute get"

/-- `_handle_complete_intake`. -/
def handle_complete_intake : Except String (List (String × JVal)) :=
  .ok [("success", .bool true), ("message", .str "Intake completed successfully")]

/-- `_handle_end_call`. -/
def handle_end_call (tool_args : RawData) : Except String (List (String × JVal)) :=
  match tool_args with
  | .dict d =>
    .ok [("success", .bool true), ("message", .str "Call ended"),
         ("reason", dictGetD d "reason" (.str "completed"))]
  | _ => .error "AttributeError: tool_args has no attribute get"

/-- The routing body inside `handle_tool_call`'s `try`. -/
def routeToolCall (st : ExecutionServiceState) (env : HandlerEnv) (tool_name : String)
    (tool_args : RawData) (call_id org_id : Option String) : HandlerOutcome :=
  match env.fault with
  | some e => { result := .error e, state := st, webhookCalls := 0 }
  | none =>
    if tool_name = "create_appointment" then
      handle_create_appointment st env tool_args call_id org_id
    else if tool_name = "escalate_call" then
      { result := handle_escalate_call tool_args, state := st, webhookCalls := 0 }
    else if tool_name = "complete_intake" then
      { result := handle_complete_intake, state := st, webhookCalls := 0 }
    else if tool_name = "end_call" then
      { result := handle_end_call tool_args, state := st, webhookCalls := 0 }
    else
      { result := .ok [("success", .bool false),
          ("error", .str ("Unknown tool: " ++ tool_name)),
          ("should_retry", .bool false)],
        state := st, webhookCalls := 0 }

/-- `RealtimeHandler.handle_tool_call`: the routing body wrapped in the
catch-all `except` that converts any escaped exception into a retryable
error dict.  Total by construction — no exception propagates. -/
def handle_tool_call (st : ExecutionServiceState) (env : HandlerEnv) (tool_name : String)
    (tool_args : RawData) (call_id org_id : Option String) :
    (List (String × JVal)) × ExecutionServiceState × Nat :=
  let run := routeToolCall st env tool_name tool_args call_id org_id
  match run.result with
  | .ok d => (d, run.state, run.webhookCalls)
  | .error e =>
    ([("success", .bool false), ("error", .str e), ("should_retry", .bool true)],
     run.state, run.webhookCalls)

/-! ## Invariants and concrete fixtures -/

/-- Every record in the ledger carries one of the three statuses that
`execute_calendar_intent` actually writes. -/
def LedgerInv (st : ExecutionServiceState) : Prop :=
  ∀ p ∈ st.executions,
    p.2.status = ExecutionStatus.executing ∨ p.2.status = ExecutionStatus.executed ∨
      p.2.status = ExecutionStatus.failed

instance (st : ExecutionServiceState) : Decidable (LedgerInv st) :=
  inferInstanceAs (Decidable (∀ p ∈ st.executions, _ ∨ _ ∨ _))

/-- A configured service with an empty ledger. -/
def stInit : ExecutionServiceState :=
  { executions := [], locks := [], webhook_url := "https://hooks.zapier.com/x" }

/-- A benign handler environment: storage writes succeed, the webhook
answers 200, no injected fault. -/
def envOk : HandlerEnv :=
  { dbSave := .ok (), dbUpdate := .ok (), webhook := .response 200 none "", fault := none }

/-- A concrete validated intent with a caller-supplied identity. -/
def intentC : CalendarEventIntent :=
  { action := "create_calendar_event", title := "Consult", description := some "",
    start_time := "2024-12-20T14:00:00Z", end_time := "2024-12-20T15:00:00Z",
    timezone := "UTC", attendees := ["john@example.com"], send_email := true,
    intent_id := some "intent-1", call_id := none, org_id := none }

/-- An already-`EXECUTED` ledger record for `intent-1`. -/
def recExecuted : ExecResult := mkExecResult true .executed "intent-1" (some (.obj []))

/-- A ledger state in which `intent-1` has already been executed. -/
def stExecuted : ExecutionServiceState :=
  { executions := [("intent-1", recExecuted)], locks := ["intent-1"],
    webhook_url := "https://hooks.zapier.com/x" }

/-- C2 fixture: upper-case attendee spelling. -/
def c2ArgsUpper : List (String × JVal) :=
  [("title", .str "T"), ("start_time", .str "2024-12-20T14:00:00Z"),
   ("end_time", .str "2024-12-20T15:00:00Z"), ("attendee_email", .str "A@b.co")]

/-- C2 fixture: lower-case attendee spelling, otherwise identical. -/
def c2ArgsLower : List (String × JVal) :=
  [("title", .str "T"), ("start_time", .str "2024-12-20T14:00:00Z"),
   ("end_time", .str "2024-12-20T15:00:00Z"), ("attendee_email", .str "a@b.co")]

/-- C4 fixture: a naive start timestamp with no offset indication. -/
def c4Args : List (String × JVal) :=
  [("title", .str "Consult"), ("start_time", .str "2024-12-20T14:00:00"),
   ("end_time", .str "2024-12-20T15:00:00Z"), ("attendee_email", .str "john@example.com")]

/-- C5 fixture: a non-empty `attendees` list but no `attendee_email`. -/
def c5Args : List (String × JVal) :=
  [("title", .str "Meeting"), ("start_time", .str "2024-12-20T14:00:00Z"),
   ("end_time", .str "2024-12-20T15:00:00Z"), ("attendees", .arr [.str "a@b.co"])]

/-- C5 fixture: both the single field and the list are given. -/
def c5BothArgs : List (String × JVal) :=
  [("title", .str "Meeting"), ("start_time", .str "2024-12-20T14:00:00Z"),
   ("end_time", .str "2024-12-20T15:00:00Z"), ("attendee_email", .str "x@y.co"),
   ("attendees", .arr [.str "a@b.co", .str "c@d.co"])]

/-- C6 fixture: three of the four required fields are missing. -/
def c6Args : List (String × JVal) := [("title", .str "Consult")]

/-! ## Ledger lemmas -/

theorem dictFind_dictSet_self (d : List (String × ExecResult)) (k : String)
    (v : ExecResult) : dictFind (dictSet d k v) k = some v := by
  induction d with
  | nil => simp [dictSet, dictFind]
  | cons p rest ih =>
    by_cases h : p.1 == k
    · simp [dictSet, dictFind, h]
    · simp only [dictSet, h, Bool.false_eq_true, if_false]
      simpa [dictFind, List.find?, h] using ih

theorem mem_dictSet {d : List (String × ExecResult)} {k : String} {v : ExecResult}
    {p : String × ExecResult} (hp : p ∈ dictSet d k v) : p ∈ d ∨ p = (k, v) := by
  induction d with
  | nil => simpa [dictSet] using hp
  | cons q rest ih =>
    by_cases h : q.1 == k
    · simp only [dictSet, h, if_true] at hp
      rcases List.mem_cons.mp hp with h1 | h1
      · right; exact h1
      · left; exact List.mem_cons_of_mem _ h1
    · simp only [dictSet, h, Bool.false_eq_true, if_false] at hp
      rcases List.mem_cons.mp hp with h1 | h1
      · left; exact h1 ▸ List.mem_cons_self _ _
      · rcases ih h1 with h2 | h2
        · left; exact List.mem_cons_of_mem _ h2
        · right; exact h2

theorem dictFind_dictDel_self (d : List (String × ExecResult)) (k : String) :
    dictFind (dictDel d k) k = none := by
  induction d with
  | nil => simp [dictDel, dictFind]
  | cons p rest ih =>
    by_cases h : p.1 == k
    · simp only [dictDel, List.filter] at ih ⊢
      simpa [h, bne] using ih
    · simp only [dictDel, List.filter] at ih ⊢
      simpa [dictFind, List.find?, h, bne] using ih

theorem contains_filter_ne_self (l : List String) (k : String) :
    (l.filter (fun x => x != k)).contains k = false := by
  rw [Bool.eq_false_iff]
  intro hc
  have hm : k ∈ l.filter (fun x => x != k) := by
    simp only [List.contains] at hc
    exact List.mem_of_elem_eq_true hc
  have := (List.mem_filter.mp hm).2
  simp at this

/-! ## Execution-transition lemmas -/

theorem executeFresh_spec (st : ExecutionServiceState) (out : WebhookOutcome)
    (intent : CalendarEventIntent) (iid : String) (hcfg : st.webhook_url ≠ "") :
    let e := executeFresh st out intent iid
    e.webhookCalls = 1 ∧ e.result.is_duplicate = false ∧
      e.result.status ≠ ExecutionStatus.duplicate ∧
      e.state.webhook_url = st.webhook_url ∧
      dictFind e.state.executions iid = some e.result ∧
      (e.result.success = true → e.result.status = ExecutionStatus.executed) ∧
      (e.result.success = false → e.result.status = ExecutionStatus.failed) := by
  show _ ∧ _ ∧ _ ∧ _ ∧ _ ∧ _ ∧ _
  unfold executeFresh call_zapier_webhook
  rcases out with msg | ⟨status, bodyJson, bodyText⟩
  · simp [hcfg, mkExecResult, dictFind_dictSet_self]
  · by_cases hs : (status == 200 || status == 201 || status == 202) = true
    · simp [hcfg, hs, mkExecResult, dictFind_dictSet_self]
    · simp [hcfg, hs, mkExecResult, dictFind_dictSet_self]

theorem execute_duplicate_spec (st : ExecutionServiceState) (out : WebhookOutcome)
    (intent : CalendarEventIntent) (r : ExecResult)
    (hfind : dictFind st.executions (orUnknown intent.intent_id) = some r)
    (hstat : r.status = ExecutionStatus.executed ∨ r.status = ExecutionStatus.executing) :
    let e := execute_calendar_intent st out intent
    e.result.success = true ∧ e.result.status = ExecutionStatus.duplicate ∧
      e.result.is_duplicate = true ∧ e.webhookCalls = 0 ∧
      e.state.executions = st.executions ∧ e.state.webhook_url = st.webhook_url ∧
      e.writes = [] := by
  show _ ∧ _ ∧ _ ∧ _ ∧ _ ∧ _ ∧ _
  unfold execute_calendar_intent
  simp only [hfind, hstat, if_true, mkExecResult]
  simp

theorem execute_fresh_of_find_none (st : ExecutionServiceState) (out : WebhookOutcome)
    (intent : CalendarEventIntent)
    (hfind : dictFind st.executions (orUnknown intent.intent_id) = none) :
    execute_calendar_intent st out intent =
      executeFresh { st with locks :=
          if st.locks.contains (orUnknown intent.intent_id) then st.locks
          else st.locks ++ [orUnknown intent.intent_id] }
        out intent (orUnknown intent.intent_id) := by
  unfold execute_calendar_intent
  simp only [hfind]

theorem execute_fresh_spec (st : ExecutionServiceState) (out : WebhookOutcome)
    (intent : CalendarEventIntent) (hcfg : st.webhook_url ≠ "")
    (hfind : dictFind st.executions (orUnknown intent.intent_id) = none) :
    let e := execute_calendar_intent st out intent
    e.webhookCalls = 1 ∧ e.result.is_duplicate = false ∧
      e.result.status ≠ ExecutionStatus.duplicate ∧
      e.state.webhook_url = st.webhook_url ∧
      dictFind e.state.executions (orUnknown intent.intent_id) = some e.result ∧
      (e.result.success = true → e.result.status = ExecutionStatus.executed) ∧
      (e.result.success = false → e.result.status = ExecutionStatus.failed) := by
  rw [execute_fresh_of_find_none st out intent hfind]
  exact executeFresh_spec _ out intent (orUnknown intent.intent_id) hcfg

theorem executeMany_zero_of_executed (outs : List WebhookOutcome)
    (st : ExecutionServiceState) (intent : CalendarEventIntent) (r : ExecResult)
    (hfind : dictFind st.executions (orUnknown intent.intent_id) = some r)
    (hstat : r.status = ExecutionStatus.executed) :
    (executeMany st outs intent).2 = 0 ∧
      (executeMany st outs intent).1.executions = st.executions := by
  induction outs generalizing st with
  | nil => simp [executeMany]
  | cons out outs ih =>
    have hdup := execute_duplicate_spec st out intent r hfind (Or.inl hstat)
    obtain ⟨-, -, -, hcalls, hexec, -, -⟩ := hdup
    have hfind2 : dictFind (execute_calendar_intent st out intent).state.executions
        (orUnknown intent.intent_id) = some r := by rw [hexec]; exact hfind
    obtain ⟨ih1, ih2⟩ := ih _ hfind2
    refine ⟨?_, ?_⟩
    · simp [executeMany, hcalls, ih1]
    · simp [executeMany, ih2, hexec]

/-! ## Claim theorems: execution layer -/

/-- C1: once the ledger holds a record with status `EXECUTED` or
`EXECUTING` for an identity, any further `execute_calendar_intent` call
for an intent with that identity returns a `DUPLICATE` result with
`success = true`, makes no webhook call, and leaves the stored executions
unchanged; consequently, for a fixed intent first executed successfully,
any number of repeated submissions results in exactly one external
webhook call. -/
theorem C1_duplicate_idempotency :
    (∀ (st : ExecutionServiceState) (out : WebhookOutcome)
        (intent : CalendarEventIntent) (r : ExecResult),
        dictFind st.executions (orUnknown intent.intent_id) = some r →
        (r.status = ExecutionStatus.executed ∨ r.status = ExecutionStatus.executing) →
        (execute_calendar_intent st out intent).result.success = true ∧
          (execute_calendar_intent st out intent).result.status = ExecutionStatus.duplicate ∧
          (execute_calendar_intent st out intent).result.is_duplicate = true ∧
          (execute_calendar_intent st out intent).webhookCalls = 0 ∧
          (execute_calendar_intent st out intent).state.executions = st.executions) ∧
    (∀ (st : ExecutionServiceState) (bodyJson : Option JVal) (bodyText : String)
        (outs : List WebhookOutcome) (intent : CalendarEventIntent),
        st.webhook_url ≠ "" →
        dictFind st.executions (orUnknown intent.intent_id) = none →
        (executeMany st (WebhookOutcome.response 200 bodyJson bodyText :: outs) intent).2
          = 1) := by
  constructor
  · intro st out intent r hfind hstat
    have h := execute_duplicate_spec st out intent r hfind hstat
    exact ⟨h.1, h.2.1, h.2.2.1, h.2.2.2.1, h.2.2.2.2.1⟩
  · intro st bodyJson bodyText outs intent hcfg hfind
    obtain ⟨hcalls, -, -, -, hfind2, hsucc, -⟩ :=
      execute_fresh_spec st (.response 200 bodyJson bodyText) intent hcfg hfind
    have hok : (execute_calendar_intent st (.response 200 bodyJson bodyText)
        intent).result.success = true := by
      rw [execute_fresh_of_find_none st _ intent hfind]
      unfold executeFresh call_zapier_webhook
      simp [show ({ st with locks :=
        if st.locks.contains (orUnknown intent.intent_id) then st.locks
        else st.locks ++ [orUnknown intent.intent_id] } :
          ExecutionServiceState).webhook_url ≠ "" from hcfg, mkExecResult]
    have hrest := executeMany_zero_of_executed outs
      (execute_calendar_intent st (.response 200 bodyJson bodyText) intent).state intent _
      hfind2 (hsucc hok)
    have hstep : (executeMany st (WebhookOutcome.response 200 bodyJson bodyText :: outs)
        intent).2 =
        (execute_calendar_intent st (WebhookOutcome.response 200 bodyJson bodyText)
          intent).webhookCalls +
        (executeMany (execute_calendar_intent st
          (WebhookOutcome.response 200 bodyJson bodyText) intent).state outs intent).2 := rfl
    rw [hstep, hcalls, hrest.1]

/-- Closed witness for C1: a ledger already holding `EXECUTED` for
`intent-1` answers a duplicate with no webhook call, and a fresh identity
submitted three times makes exactly one webhook call. -/
theorem C1_duplicate_idempotency_witness :
    ((execute_calendar_intent stExecuted (.response 500 none "boom") intentC).result.status
        = ExecutionStatus.duplicate ∧
      (execute_calendar_intent stExecuted (.response 500 none "boom")
        intentC).webhookCalls = 0) ∧
    (executeMany stInit
      [WebhookOutcome.response 200 none "ok", WebhookOutcome.response 200 none "ok",
       WebhookOutcome.transportError "timeout"] intentC).2 = 1 := by
  constructor
  · have h := C1_duplicate_idempotency.1 stExecuted (.response 500 none "boom") intentC
      recExecuted rfl (Or.inl rfl)
    exact ⟨h.2.1, h.2.2.2.1⟩
  · exact C1_duplicate_idempotency.2 stInit none "ok"
      [.response 200 none "ok", .transportError "timeout"] intentC (by decide) rfl

theorem execute_fresh_of_find_not_dup (st : ExecutionServiceState) (out : WebhookOutcome)
    (intent : CalendarEventIntent) (r : ExecResult)
    (hfind : dictFind st.executions (orUnknown intent.intent_id) = some r)
    (hne : ¬(r.status = ExecutionStatus.executed ∨ r.status = ExecutionStatus.executing)) :
    execute_calendar_intent st out intent =
      executeFresh { st with locks :=
          if st.locks.contains (orUnknown intent.intent_id) then st.locks
          else st.locks ++ [orUnknown intent.intent_id] }
        out intent (orUnknown intent.intent_id) := by
  unfold execute_calendar_intent
  simp only [hfind, hne, if_false]

/-- C3 counterexample: after a failed execution of `intent-1` (record
status `FAILED`), re-invoking `execute_calendar_intent` with the same
intent invokes the external webhook again — it does not dedupe. -/
theorem C3_counterexample :
    ((dictFind (execute_calendar_intent stInit (.transportError "Request timed out")
        intentC).state.executions "intent-1").map (fun r => r.status) =
      some ExecutionStatus.failed) ∧
    (execute_calendar_intent
        (execute_calendar_intent stInit (.transportError "Request timed out") intentC).state
        (.response 200 none "ok") intentC).webhookCalls = 1 := by
  exact ⟨rfl, rfl⟩

/-- C3 amended: a `FAILED` record does **not** dedupe — re-invoking
`execute_calendar_intent` with the same intent (no purge needed) makes a
fresh webhook call and does not return a duplicate result; only
`EXECUTED`/`EXECUTING` short-circuit. -/
theorem C3_failed_record_reexecutes :
    ∀ (st : ExecutionServiceState) (out : WebhookOutcome) (intent : CalendarEventIntent)
      (r : ExecResult),
      dictFind st.executions (orUnknown intent.intent_id) = some r →
      r.status = ExecutionStatus.failed →
      st.webhook_url ≠ "" →
      (execute_calendar_intent st out intent).webhookCalls = 1 ∧
        (execute_calendar_intent st out intent).result.is_duplicate = false ∧
        (execute_calendar_intent st out intent).result.status ≠
          ExecutionStatus.duplicate := by
  intro st out intent r hfind hstat hcfg
  have hne : ¬(r.status = ExecutionStatus.executed ∨
      r.status = ExecutionStatus.executing) := by
    rw [hstat]; rintro (h | h) <;> exact ExecutionStatus.noConfusion h
  rw [execute_fresh_of_find_not_dup st out intent r hfind hne]
  have hs := executeFresh_spec { st with locks :=
      if (st.locks.contains (orUnknown intent.intent_id)) then st.locks
      else st.locks ++ [orUnknown intent.intent_id] } out intent
    (orUnknown intent.intent_id) hcfg
  obtain ⟨h1, h2, h3, -, -, -, -⟩ := hs
  exact ⟨h1, h2, h3⟩

/-- Closed witness for the amended C3. -/
theorem C3_failed_record_reexecutes_witness :
    (execute_calendar_intent
        (execute_calendar_intent stInit (.transportError "Request timed out") intentC).state
        (.transportError "boom") intentC).webhookCalls = 1 := by
  have h := C3_failed_record_reexecutes
    (execute_calendar_intent stInit (.transportError "Request timed out") intentC).state
    (.transportError "boom") intentC
    (mkExecResult false .failed "intent-1" none (some "Request timed out"))
    rfl rfl (by decide)
  exact h.1

/-- C9: purging an identity with a stored record deletes both the record
and its lock and returns `true`; with no record it returns `false` and
changes nothing; and after purging an `EXECUTED` identity, `was_executed`
is `false` and an identical intent executes the webhook afresh, not as a
duplicate. -/
theorem C9_purge_semantics :
    (∀ (st : ExecutionServiceState) (iid : String) (r : ExecResult),
        dictFind st.executions iid = some r →
        (reset_execution st iid).1 = true ∧
          dictFind (reset_execution st iid).2.executions iid = none ∧
          (reset_execution st iid).2.locks.contains iid = false) ∧
    (∀ (st : ExecutionServiceState) (iid : String),
        dictFind st.executions iid = none → reset_execution st iid = (false, st)) ∧
    (∀ (st : ExecutionServiceState) (intent : CalendarEventIntent) (r : ExecResult)
        (out : WebhookOutcome),
        dictFind st.executions (orUnknown intent.intent_id) = some r →
        r.status = ExecutionStatus.executed →
        st.webhook_url ≠ "" →
        was_executed (reset_execution st (orUnknown intent.intent_id)).2
            (some (orUnknown intent.intent_id)) = false ∧
          (execute_calendar_intent (reset_execution st (orUnknown intent.intent_id)).2 out
            intent).webhookCalls = 1 ∧
          (execute_calendar_intent (reset_execution st (orUnknown intent.intent_id)).2 out
            intent).result.is_duplicate = false) := by
  refine ⟨?_, ?_, ?_⟩
  · intro st iid r hfind
    unfold reset_execution
    simp only [hfind, Option.isSome_some, if_true]
    exact ⟨trivial, dictFind_dictDel_self _ _, contains_filter_ne_self _ _⟩
  · intro st iid hfind
    unfold reset_execution
    simp only [hfind, Option.isSome_none, Bool.false_eq_true, if_false]
  · intro st intent r out hfind hstat hcfg
    have hdel : dictFind (reset_execution st (orUnknown intent.intent_id)).2.executions
        (orUnknown intent.intent_id) = none := by
      unfold reset_execution
      simp only [hfind, Option.isSome_some, if_true]
      exact dictFind_dictDel_self _ _
    have hurl : (reset_execution st (orUnknown intent.intent_id)).2.webhook_url ≠ "" := by
      unfold reset_execution
      simp only [hfind, Option.isSome_some, if_true]
      exact hcfg
    refine ⟨?_, ?_⟩
    · unfold was_executed
      simp [hdel]
    · obtain ⟨h1, h2, -, -, -, -, -⟩ :=
        execute_fresh_spec _ out intent hurl hdel
      exact ⟨h1, h2⟩

/-- Closed witness for C9. -/
theorem C9_purge_semantics_witness :
    ((reset_execution stExecuted "intent-1").1 = true ∧
      dictFind (reset_execution stExecuted "intent-1").2.executions "intent-1" = none ∧
      (reset_execution stExecuted "intent-1").2.locks.contains "intent-1" = false) ∧
    reset_execution stInit "intent-1" = (false, stInit) ∧
    (was_executed (reset_execution stExecuted "intent-1").2 (some "intent-1") = false ∧
      (execute_calendar_intent (reset_execution stExecuted "intent-1").2
        (.response 200 none "ok") intentC).webhookCalls = 1) := by
  refine ⟨C9_purge_semantics.1 stExecuted "intent-1" recExecuted rfl, ?_, ?_⟩
  · exact C9_purge_semantics.2.1 stInit "intent-1" rfl
  · have h := C9_purge_semantics.2.2 stExecuted intentC recExecuted
      (.response 200 none "ok") rfl rfl (by decide)
    exact ⟨h.1, h.2.1⟩

theorem executeFresh_writes (st : ExecutionServiceState) (out : WebhookOutcome)
    (intent : CalendarEventIntent) (iid : String) :
    ∀ w ∈ (executeFresh st out intent iid).writes,
      w.status = ExecutionStatus.executing ∨ w.status = ExecutionStatus.executed ∨
        w.status = ExecutionStatus.failed := by
  intro w hw
  unfold executeFresh call_zapier_webhook at hw
  by_cases hcfg : st.webhook_url = ""
  · simp only [hcfg, if_pos rfl] at hw
    rcases List.mem_cons.mp hw with h | h
    · exact Or.inl (h ▸ rfl)
    · rcases List.mem_cons.mp h with h2 | h2
      · exact Or.inr (Or.inr (h2 ▸ rfl))
      · cases h2
  · rcases out with msg | ⟨status, bodyJson, bodyText⟩
    · simp only [hcfg, if_neg hcfg] at hw
      rcases List.mem_cons.mp hw with h | h
      · exact Or.inl (h ▸ rfl)
      · rcases List.mem_cons.mp h with h2 | h2
        · exact Or.inr (Or.inr (h2 ▸ rfl))
        · cases h2
    · by_cases hs : (status == 200 || status == 201 || status == 202) = true
      · simp only [hcfg, if_neg hcfg, hs, if_pos rfl] at hw
        rcases List.mem_cons.mp hw with h | h
        · exact Or.inl (h ▸ rfl)
        · rcases List.mem_cons.mp h with h2 | h2
          · exact Or.inr (Or.inl (h2 ▸ rfl))
          · cases h2
      · simp only [hcfg, if_neg hcfg, hs] at hw
        rcases List.mem_cons.mp hw with h | h
        · exact Or.inl (h ▸ rfl)
        · rcases List.mem_cons.mp h with h2 | h2
          · exact Or.inr (Or.inr (h2 ▸ rfl))
          · cases h2

theorem executeFresh_state_executions (st : ExecutionServiceState) (out : WebhookOutcome)
    (intent : CalendarEventIntent) (iid : String) :
    (executeFresh st out intent iid).state.executions =
      dictSet (dictSet st.executions iid (mkExecResult false .executing iid))
        iid (executeFresh st out intent iid).result := by
  unfold executeFresh
  rcases h : call_zapier_webhook st.webhook_url out intent with ⟨res | res, called⟩ <;>
    simp [h]

theorem execute_result_mem_writes (st : ExecutionServiceState) (out : WebhookOutcome)
    (intent : CalendarEventIntent) (iid : String) :
    (executeFresh st out intent iid).result ∈ (executeFresh st out intent iid).writes := by
  unfold executeFresh
  rcases h : call_zapier_webhook st.webhook_url out intent with ⟨res | res, called⟩ <;>
    simp [h]

/-- C10: the only statuses ever written into the `_executions` map are
`EXECUTING`, `EXECUTED` and `FAILED` — `PENDING` and `DUPLICATE` are never
stored (a duplicate attempt returns without writing) — the invariant is
preserved by every transition from the empty initial state, and under it
`was_executed` is `true` exactly when the stored record is `EXECUTED`. -/
theorem C10_stored_status_invariant :
    (∀ (st : ExecutionServiceState) (out : WebhookOutcome) (intent : CalendarEventIntent),
        ∀ w ∈ (execute_calendar_intent st out intent).writes,
          w.status = ExecutionStatus.executing ∨ w.status = ExecutionStatus.executed ∨
            w.status = ExecutionStatus.failed) ∧
    (∀ (locks : List String) (url : String),
        LedgerInv { executions := [], locks := locks, webhook_url := url }) ∧
    (∀ (st : ExecutionServiceState) (out : WebhookOutcome) (intent : CalendarEventIntent),
        LedgerInv st → LedgerInv (execute_calendar_intent st out intent).state) ∧
    (∀ (st : ExecutionServiceState) (iid : String),
        LedgerInv st → LedgerInv (reset_execution st iid).2) ∧
    (∀ (st : ExecutionServiceState) (iid : String), LedgerInv st →
        (was_executed st (some iid) = true ↔
          ∃ r, dictFind st.executions iid = some r ∧
            r.status = ExecutionStatus.executed)) := by
  have hwrites : ∀ (st : ExecutionServiceState) (out : WebhookOutcome)
      (intent : CalendarEventIntent),
      ∀ w ∈ (execute_calendar_intent st out intent).writes,
        w.status = ExecutionStatus.executing ∨ w.status = ExecutionStatus.executed ∨
          w.status = ExecutionStatus.failed := by
    intro st out intent w hw
    rcases hfind : dictFind st.executions (orUnknown intent.intent_id) with - | r
    · rw [execute_fresh_of_find_none st out intent hfind] at hw
      exact executeFresh_writes _ out intent _ w hw
    · by_cases hstat : r.status = ExecutionStatus.executed ∨
          r.status = ExecutionStatus.executing
      · have hd := execute_duplicate_spec st out intent r hfind hstat
        rw [hd.2.2.2.2.2.2] at hw
        cases hw
      · rw [execute_fresh_of_find_not_dup st out intent r hfind hstat] at hw
        exact executeFresh_writes _ out intent _ w hw
  refine ⟨hwrites, ?_, ?_, ?_, ?_⟩
  · intro locks url p hp
    cases hp
  · intro st out intent hinv
    have hfreshInv : ∀ (stL : ExecutionServiceState),
        stL.executions = st.executions →
        LedgerInv (executeFresh stL out intent (orUnknown intent.intent_id)).state := by
      intro stL hstL p hp
      rw [executeFresh_state_executions] at hp
      rcases mem_dictSet hp with h1 | h1
      · rcases mem_dictSet h1 with h2 | h2
        · exact hinv p (by rw [hstL] at h2; exact h2)
        · exact Or.inl (h2 ▸ rfl)
      · have hres := execute_result_mem_writes stL out intent (orUnknown intent.intent_id)
        have := executeFresh_writes stL out intent (orUnknown intent.intent_id) _ hres
        rw [h1]
        exact this
    rcases hfind : dictFind st.executions (orUnknown intent.intent_id) with - | r
    · rw [execute_fresh_of_find_none st out intent hfind]
      exact hfreshInv _ rfl
    · by_cases hstat : r.status = ExecutionStatus.executed ∨
          r.status = ExecutionStatus.executing
      · have hd := execute_duplicate_spec st out intent r hfind hstat
        intro p hp
        rw [hd.2.2.2.2.1] at hp
        exact hinv p hp
      · rw [execute_fresh_of_find_not_dup st out intent r hfind hstat]
        exact hfreshInv _ rfl
  · intro st iid hinv
    unfold reset_execution
    by_cases h : (dictFind st.executions iid).isSome
    · simp only [h, if_true]
      intro p hp
      exact hinv p (List.mem_of_mem_filter hp)
    · simp only [h, Bool.false_eq_true, if_false]
      exact hinv
  · intro st iid hinv
    constructor
    · intro hwe
      have hwe2 : (match dictFind st.executions iid with
          | none => false
          | some r => decide (r.status = ExecutionStatus.executed ∨
              r.status = ExecutionStatus.duplicate)) = true := hwe
      rcases hfind : dictFind st.executions iid with - | r
      · rw [hfind] at hwe2
        cases hwe2
      · rw [hfind] at hwe2
        have hor : r.status = ExecutionStatus.executed ∨
            r.status = ExecutionStatus.duplicate := of_decide_eq_true hwe2
        rcases hor with h | h
        · exact ⟨r, rfl, h⟩
        · -- a stored record can never be DUPLICATE
          obtain ⟨p, hp, hp2⟩ : ∃ p, List.find? (fun p => p.1 == iid) st.executions = some p
              ∧ p.2 = r := by
            unfold dictFind at hfind
            rcases hmap : List.find? (fun p => p.1 == iid) st.executions with - | q
            · rw [hmap] at hfind; cases hfind
            · rw [hmap] at hfind
              exact ⟨q, hmap, by simpa using hfind⟩
          have hmem := List.mem_of_find?_eq_some hp
          have := hinv p hmem
          rw [hp2, h] at this
          rcases this with h2 | h2 | h2 <;> cases h2
    · intro ⟨r, hfind, hstat⟩
      show (match dictFind st.executions iid with
          | none => false
          | some r => decide (r.status = ExecutionStatus.executed ∨
              r.status = ExecutionStatus.duplicate)) = true
      rw [hfind]
      exact decide_eq_true (Or.inl hstat)

/-- Closed witness for C10. -/
theorem C10_stored_status_invariant_witness :
    (∀ w ∈ (execute_calendar_intent stInit (.response 200 none "ok") intentC).writes,
        w.status = ExecutionStatus.executing ∨ w.status = ExecutionStatus.executed ∨
          w.status = ExecutionStatus.failed) ∧
    LedgerInv (execute_calendar_intent stExecuted (.response 200 none "ok") intentC).state ∧
    (was_executed stExecuted (some "intent-1") = true ↔
      ∃ r, dictFind stExecuted.executions "intent-1" = some r ∧
        r.status = ExecutionStatus.executed) := by
  refine ⟨C10_stored_status_invariant.1 stInit _ intentC, ?_, ?_⟩
  · exact C10_stored_status_invariant.2.2.1 stExecuted (.response 200 none "ok") intentC
      (by decide)
  · exact C10_stored_status_invariant.2.2.2.2 stExecuted "intent-1" (by decide)

/-! ## Claim theorems: parsing and routing -/

/-- C7: `parse_tool_call_safely` returns a `(parsedMap, error)` pair for
every input (total, never raises): `None`, whitespace-only strings,
non-JSON strings, and JSON non-objects each yield no parsed map plus a
decode-error message; an already-structured dict is returned unchanged
with no error. -/
theorem C7_parse_safety :
    (parse_tool_call_safely .pyNone = (none, some "Tool call data is None")) ∧
    (∀ d, parse_tool_call_safely (.dict d) = (some d, none)) ∧
    (∀ s, pyStrip s = "" →
        parse_tool_call_safely (.str s) = (none, some "Empty tool call data")) ∧
    (∀ s e, pyStrip s ≠ "" → jsonLoads (pyStrip s) = .error e →
        parse_tool_call_safely (.str s) = (none, some ("Invalid JSON: " ++ e))) ∧
    (∀ s v, pyStrip s ≠ "" → jsonLoads (pyStrip s) = .ok v → (∀ d, v ≠ .obj d) →
        parse_tool_call_safely (.str s) =
          (none, some ("Expected object, got " ++ v.pyTypeName))) ∧
    (∀ t, parse_tool_call_safely (.other t) = (none, some ("Unexpected data type: " ++ t))) ∧
    (∀ raw, (parse_tool_call_safely raw).1.isSome ∨ (parse_tool_call_safely raw).2.isSome) := by
  refine ⟨rfl, fun d => rfl, ?_, ?_, ?_, fun t => rfl, ?_⟩
  · intro s hs
    simp only [parse_tool_call_safely]
    rw [if_pos hs]
  · intro s e hs hj
    simp only [parse_tool_call_safely]
    rw [if_neg hs, hj]
  · intro s v hs hj hv
    simp only [parse_tool_call_safely]
    rw [if_neg hs, hj]
    rcases v with - | b | ⟨m, ex, f⟩ | sv | xs | fs
    · rfl
    · rfl
    · rfl
    · rfl
    · rfl
    · exact absurd rfl (hv fs)
  · intro raw
    rcases raw with - | d | s | t
    · exact Or.inr rfl
    · exact Or.inl rfl
    · simp only [parse_tool_call_safely]
      by_cases hs : pyStrip s = ""
      · rw [if_pos hs]; exact Or.inr rfl
      · rw [if_neg hs]
        rcases jsonLoads (pyStrip s) with e | v
        · exact Or.inr rfl
        · rcases v with - | b | ⟨m, ex, f⟩ | sv | xs | fs
          · exact Or.inr rfl
          · exact Or.inr rfl
          · exact Or.inr rfl
          · exact Or.inr rfl
          · exact Or.inr rfl
          · exact Or.inl rfl
    · exact Or.inr rfl

/-- Closed witness for C7: the empty-ish string, a non-JSON string and a
JSON array each produce a decode error, and a dict passes through. -/
theorem C7_parse_safety_witness :
    parse_tool_call_safely (.str "   ") = (none, some "Empty tool call data") ∧
    parse_tool_call_safely (.str "hello") =
      (none, some "Invalid JSON: Expecting value") ∧
    parse_tool_call_safely (.str "[1, 2]") = (none, some "Expected object, got list") ∧
    parse_tool_call_safely (.dict c6Args) = (some c6Args, none) := by
  refine ⟨?_, ?_, ?_, C7_parse_safety.2.1 c6Args⟩
  · exact C7_parse_safety.2.2.1 "   " rfl
  · exact C7_parse_safety.2.2.2.1 "hello" "Expecting value" (by decide) rfl
  · exact C7_parse_safety.2.2.2.2.1 "[1, 2]" (.arr [.num 1 0 false, .num 2 0 false])
      (by decide) rfl (fun d h => JVal.noConfusion h)

/-- C8: `handle_tool_call` never propagates an exception — any error
escaping the routing body is reported as
`\x7bsuccess: false, error, should_retry: true\x7d` — and an unknown tool name
yields `\x7bsuccess: false, error, should_retry: false\x7d`. -/
theorem C8_handler_never_raises :
    (∀ (st : ExecutionServiceState) (env : HandlerEnv) (tool_name : String)
        (tool_args : RawData) (call_id org_id : Option String) (e : String),
        (routeToolCall st env tool_name tool_args call_id org_id).result = .error e →
        (handle_tool_call st env tool_name tool_args call_id org_id).1 =
          [("success", .bool false), ("error", .str e), ("should_retry", .bool true)]) ∧
    (∀ (st : ExecutionServiceState) (env : HandlerEnv) (tool_name : String)
        (tool_args : RawData) (call_id org_id : Option String) (e : String),
        env.fault = some e →
        handle_tool_call st env tool_name tool_args call_id org_id =
          ([("success", .bool false), ("error", .str e), ("should_retry", .bool true)],
            st, 0)) ∧
    (∀ (st : ExecutionServiceState) (env : HandlerEnv) (tool_name : String)
        (tool_args : RawData) (call_id org_id : Option String),
        env.fault = none →
        tool_name ≠ "create_appointment" → tool_name ≠ "escalate_call" →
        tool_name ≠ "complete_intake" → tool_name ≠ "end_call" →
        handle_tool_call st env tool_name tool_args call_id org_id =
          ([("success", .bool false), ("error", .str ("Unknown tool: " ++ tool_name)),
            ("should_retry", .bool false)], st, 0)) := by
  refine ⟨?_, ?_, ?_⟩
  · intro st env tool_name tool_args call_id org_id e herr
    simp only [handle_tool_call]
    rw [herr]
  · intro st env tool_name tool_args call_id org_id e hf
    simp only [handle_tool_call, routeToolCall]
    rw [hf]
  · intro st env tool_name tool_args call_id org_id hf h1 h2 h3 h4
    simp only [handle_tool_call, routeToolCall]
    rw [hf]
    simp only [if_neg h1, if_neg h2, if_neg h3, if_neg h4]

/-- Closed witness for C8: an injected internal fault is caught and
reported retryable; an unknown tool gets the non-retryable error shape. -/
theorem C8_handler_never_raises_witness :
    handle_tool_call stInit { envOk with fault := some "boom" } "create_appointment"
        (.dict c6Args) none none =
      ([("success", .bool false), ("error", .str "boom"), ("should_retry", .bool true)],
        stInit, 0) ∧
    handle_tool_call stInit envOk "transfer_funds" (.dict c6Args) none none =
      ([("success", .bool false), ("error", .str "Unknown tool: transfer_funds"),
        ("should_retry", .bool false)], stInit, 0) := by
  constructor
  · exact C8_handler_never_raises.2.1 stInit { envOk with fault := some "boom" }
      "create_appointment" (.dict c6Args) none none "boom" rfl
  · exact C8_handler_never_raises.2.2 stInit envOk "transfer_funds" (.dict c6Args)
      none none rfl (by decide) (by decide) (by decide) (by decide)

/-! ## Claim theorems: identity derivation -/

set_option maxRecDepth 100000 in
/-- C2 counterexample: two payloads that differ only in the casing of the
attendee address both validate successfully, normalize to the same
attendee list `["a@b.co"]` — identical normalized fields — and yet
receive **different** identity strings, because the idempotency key is
hashed over the raw attendee value before normalization. -/
theorem C2_counterexample :
    ((validate_calendar_intent c2ArgsUpper none none).toOption.map
        (fun vr => (vr.is_valid, vr.intent.map (fun i => (i.intent_id, i.attendees)))) =
      some (true, some (some "393b613c6ae18486", ["a@b.co"]))) ∧
    ((validate_calendar_intent c2ArgsLower none none).toOption.map
        (fun vr => (vr.is_valid, vr.intent.map (fun i => (i.intent_id, i.attendees)))) =
      some (true, some (some "34e4bcaf64ca9186", ["a@b.co"]))) ∧
    ("393b613c6ae18486" : String) ≠ "34e4bcaf64ca9186" := by
  exact ⟨by decide, by decide, by decide⟩

/-- C2 amended: the identity is a deterministic digest of the **raw**
`(title, start, end, first attendee)` values as interpolated into the
idempotency key: payloads agreeing on those raw renderings (and supplying
no identity of their own) get the same identity, and in particular a
single `attendee_email` payload and an `attendees`-list payload carrying
the same raw address string (with some `attendee_email` also present, as
the required-field check demands) agree; the digest is
`sha256(title|start|end|attendee)[:16]`.  Payloads whose attendee differs
in casing or whitespace hash differently (see the counterexample). -/
theorem C2_identity_of_raw_values :
    (∀ (args1 args2 : List (String × JVal)) (fa1 fa2 : JVal),
        firstAttendeeRaw (selectAttendees args1) = .ok fa1 →
        firstAttendeeRaw (selectAttendees args2) = .ok fa2 →
        fa1.pyStr = fa2.pyStr →
        (dictGetN args1 "title").pyStr = (dictGetN args2 "title").pyStr →
        (dictGetN args1 "start_time").pyStr = (dictGetN args2 "start_time").pyStr →
        (dictGetN args1 "end_time").pyStr = (dictGetN args2 "end_time").pyStr →
        (dictGetN args1 "intent_id").truthy = false →
        (dictGetN args2 "intent_id").truthy = false →
        computedIntentId args1 = computedIntentId args2) ∧
    (∀ (t s e a b : String), a ≠ "" → b ≠ "" →
        computedIntentId [("title", .str t), ("start_time", .str s), ("end_time", .str e),
          ("attendee_email", .str a)] =
          .ok (.str ((sha256Hex (t ++ "|" ++ s ++ "|" ++ e ++ "|" ++ a)).take 16)) ∧
        computedIntentId [("title", .str t), ("start_time", .str s), ("end_time", .str e),
          ("attendee_email", .str b), ("attendees", .arr [.str a])] =
          .ok (.str ((sha256Hex (t ++ "|" ++ s ++ "|" ++ e ++ "|" ++ a)).take 16))) := by
  constructor
  · intro args1 args2 fa1 fa2 h1 h2 hfa ht hs he hid1 hid2
    simp only [computedIntentId, h1, h2, Except.map]
    simp only [intentIdValue, hid1, Bool.false_eq_true, if_false, hid2,
      idempotencyKey, ht, hs, he, hfa]
  · intro t s e a b ha hb
    constructor
    · simp [computedIntentId, selectAttendees, firstAttendeeRaw, pyIndexZero,
        dictGetN, dictGetD, dictGet, JVal.truthy, JVal.pyStr, idempotencyKey,
        intentIdValue, ha, Except.map]
    · simp [computedIntentId, selectAttendees, firstAttendeeRaw, pyIndexZero,
        dictGetN, dictGetD, dictGet, JVal.truthy, JVal.pyStr, idempotencyKey,
        intentIdValue, ha, hb, Except.map]

/-- Closed witness for the amended C2. -/
theorem C2_identity_of_raw_values_witness :
    computedIntentId c2ArgsUpper =
      computedIntentId (("description", JVal.str "irrelevant") :: c2ArgsUpper) ∧
    computedIntentId [("title", JVal.str "T"),
        ("start_time", JVal.str "2024-12-20T14:00:00Z"),
        ("end_time", JVal.str "2024-12-20T15:00:00Z"),
        ("attendee_email", JVal.str "a@b.co")] =
      .ok (.str ((sha256Hex
        "T|2024-12-20T14:00:00Z|2024-12-20T15:00:00Z|a@b.co").take 16)) := by
  constructor
  · exact C2_identity_of_raw_values.1 c2ArgsUpper
      (("description", JVal.str "irrelevant") :: c2ArgsUpper)
      (.str "A@b.co") (.str "A@b.co") rfl rfl rfl rfl rfl rfl rfl rfl
  · exact (C2_identity_of_raw_values.2 "T" "2024-12-20T14:00:00Z"
      "2024-12-20T15:00:00Z" "a@b.co" "a@b.co" (by decide) (by decide)).1

/-! ## Claim theorems: timestamp validation -/

set_option maxRecDepth 100000 in
/-- C4 counterexample: `"2024-12-20T14:00:00"` carries no offset
indication at all (no `+`, `-`, or `Z` in its time part), yet a payload
using it as `start_time` validates successfully — naive timestamps are
accepted, not rejected. -/
theorem C4_counterexample :
    ("2024-12-20T14:00:00".data.drop 11).all
      (fun c => decide (c ≠ '+') && decide (c ≠ '-') && decide (c ≠ 'Z')) = true ∧
    (validate_calendar_intent c4Args none none).toOption.map
      (fun vr => vr.is_valid) = some true := by
  exact ⟨by decide, by decide⟩

/-- C4 amended: a start/end timestamp is accepted iff
`datetime.fromisoformat` parses it after rewriting `Z` to `+00:00` — an
explicit UTC offset is **not** required (naive timestamps pass); a
timestamp that does not parse is rejected with an error naming the
offending field and the expected format. -/
theorem C4_iso_validation :
    (∀ (name s : String), validate_iso8601 s = true →
        pydIsoField name (.str s) = .ok s) ∧
    (∀ (name s : String), validate_iso8601 s = false →
        pydIsoField name (.str s) = .error [name ++
          ": Value error, Invalid ISO-8601 datetime: " ++ s ++
          ". Expected format: YYYY-MM-DDTHH:MM:SSZ"]) ∧
    (∀ (s : String), s ≠ "" → validate_iso8601 s = false →
        (validate_calendar_intent [("title", .str "Consult"), ("start_time", .str s),
            ("end_time", .str "2024-12-20T15:00:00Z"),
            ("attendee_email", .str "john@example.com")] none none).toOption.map
          (fun vr => (vr.is_valid, vr.errors)) =
        some (false, ["start_time: Value error, Invalid ISO-8601 datetime: " ++ s ++
          ". Expected format: YYYY-MM-DDTHH:MM:SSZ"])) := by
  refine ⟨?_, ?_, ?_⟩
  · intro name s h
    simp [pydIsoField, h]
  · intro name s h
    simp [pydIsoField, h]
  · intro s hs hbad
    simp only [validate_calendar_intent, requiredFields, dictGetN, dictGetD, dictGet,
      List.reverse, List.reverseAux, List.find?, List.filter, selectAttendees,
      firstAttendeeRaw, pyIndexZero, idempotencyKey, intentIdValue,
      buildCalendarEventIntent, pydCombine, pydStrField, pydPlainStrField,
      pydOptStrField, pydIsoField, pydAttendeesField, pydStrItems, validate_attendees,
      pydBoolField, JVal.truthy, JVal.pyStr, hbad, hs]
    simp +decide [hs, hbad,
      show pydStrItems "attendees" 0 [JVal.str "john@example.com"] =
        Except.ok ["john@example.com"] from rfl,
      show validate_attendees "attendees" ["john@example.com"] =
        Except.ok ["john@example.com"] from rfl]
    exact ⟨_, rfl, rfl, rfl⟩

/-- Closed witness for the amended C4. -/
theorem C4_iso_validation_witness :
    pydIsoField "start_time" (.str "2024-12-20T14:00:00") =
      .ok "2024-12-20T14:00:00" ∧
    pydIsoField "start_time" (.str "tomorrow") =
      .error ["start_time: Value error, Invalid ISO-8601 datetime: tomorrow. Expected format: YYYY-MM-DDTHH:MM:SSZ"] ∧
    (validate_calendar_intent [("title", .str "Consult"), ("start_time", .str "tomorrow"),
        ("end_time", .str "2024-12-20T15:00:00Z"),
        ("attendee_email", .str "john@example.com")] none none).toOption.map
      (fun vr => (vr.is_valid, vr.errors)) =
    some (false,
      ["start_time: Value error, Invalid ISO-8601 datetime: tomorrow. Expected format: YYYY-MM-DDTHH:MM:SSZ"]) := by
  refine ⟨C4_iso_validation.1 "start_time" "2024-12-20T14:00:00" (by decide),
    C4_iso_validation.2.1 "start_time" "tomorrow" (by decide),
    C4_iso_validation.2.2 "tomorrow" (by decide) (by decide)⟩

/-! ## Claim theorems: required fields and attendee selection -/

set_option maxRecDepth 100000 in
/-- C5 counterexample: a payload with a non-empty `attendees` list, valid
title and timestamps, but no `attendee_email` field fails validation with
`attendee_email` reported missing — it does not pass the required-field
check. -/
theorem C5_counterexample :
    (validate_calendar_intent c5Args none none).toOption.map
      (fun vr => (vr.is_valid, vr.errors)) =
    some (false, ["Missing required fields: attendee_email"]) := by
  decide

theorem validate_missing_fields (args : List (String × JVal))
    (cid oid : Option String)
    (h : requiredFields.filter (fun f => !(dictGetN args f).truthy) ≠ []) :
    validate_calendar_intent args cid oid = .ok {
      is_valid := false
      intent := none
      errors := [("Missing required fields: " ++
        String.intercalate ", " (requiredFields.filter
          (fun f => !(dictGetN args f).truthy)))]
      raw_input := some args } := by
  have hne : (requiredFields.filter (fun f => !(dictGetN args f).truthy)).isEmpty
      = false := by
    rcases hm : requiredFields.filter (fun f => !(dictGetN args f).truthy) with - | ⟨x, xs⟩
    · exact absurd hm h
    · rfl
  simp only [validate_calendar_intent, hne, Bool.not_false, if_true]

/-- C5 amended: the required-field check demands a truthy
`attendee_email` unconditionally, so an `attendees`-only payload is
rejected with `attendee_email` missing; the list wins over the single
field only when both are given (the single field is wrapped into a
one-element list only when the list is absent or falsy), and with both
present a payload validates with the list's addresses. -/
theorem C5_attendee_email_required :
    (∀ (args : List (String × JVal)) (cid oid : Option String),
        (dictGetN args "attendee_email").truthy = false →
        "attendee_email" ∈ requiredFields.filter (fun f => !(dictGetN args f).truthy) ∧
        validate_calendar_intent args cid oid = .ok {
          is_valid := false
          intent := none
          errors := [("Missing required fields: " ++
            String.intercalate ", " (requiredFields.filter
              (fun f => !(dictGetN args f).truthy)))]
          raw_input := some args }) ∧
    (∀ (args : List (String × JVal)),
        (dictGetD args "attendees" (.arr [])).truthy = true →
        selectAttendees args = dictGetD args "attendees" (.arr [])) ∧
    (∀ (args : List (String × JVal)),
        (dictGetD args "attendees" (.arr [])).truthy = false →
        (dictGetN args "attendee_email").truthy = true →
        selectAttendees args = .arr [dictGetN args "attendee_email"]) ∧
    ((validate_calendar_intent c5BothArgs none none).toOption.map
      (fun vr => (vr.is_valid, vr.intent.map (fun i => i.attendees))) =
      some (true, some ["a@b.co", "c@d.co"])) := by
  refine ⟨?_, ?_, ?_, ?_⟩
  · intro args cid oid hae
    have hmem : "attendee_email" ∈
        requiredFields.filter (fun f => !(dictGetN args f).truthy) := by
      apply List.mem_filter.mpr
      refine ⟨by simp [requiredFields], by simp [hae]⟩
    refine ⟨hmem, validate_missing_fields args cid oid ?_⟩
    intro hnil
    rw [hnil] at hmem
    cases hmem
  · intro args hT
    simp [selectAttendees, hT]
  · intro args hF hT
    simp [selectAttendees, hF, hT]
  · decide

/-- Closed witness for the amended C5. -/
theorem C5_attendee_email_required_witness :
    validate_calendar_intent c5Args none none = .ok {
      is_valid := false
      intent := none
      errors := ["Missing required fields: attendee_email"]
      raw_input := some c5Args } ∧
    selectAttendees c5BothArgs = .arr [.str "a@b.co", .str "c@d.co"] ∧
    selectAttendees c2ArgsUpper = .arr [.str "A@b.co"] := by
  refine ⟨?_, ?_, ?_⟩
  · exact (C5_attendee_email_required.1 c5Args none none rfl).2
  · exact C5_attendee_email_required.2.1 c5BothArgs rfl
  · exact C5_attendee_email_required.2.2.1 c2ArgsUpper rfl rfl

/-- C6 counterexample: with `start_time`, `end_time` and `attendee_email`
all missing, validation returns a single error entry (not one per missing
field), and the orchestrator's `missing_fields` is the literal
`["Missing required fields"]` — the split on `":"` strips the actual
field names. -/
theorem C6_counterexample :
    ((validate_calendar_intent c6Args none none).toOption.map
        (fun vr => vr.errors.length) = some 1) ∧
    (dictGet (handle_tool_call stInit envOk "create_appointment" (.dict c6Args)
        none none).1 "missing_fields" =
      some (.arr [.str "Missing required fields"])) := by
  exact ⟨by decide, rfl⟩

theorem beforeFirstColon_missing_msg (j : String) :
    beforeFirstColon ("Missing required fields: " ++ j) = "Missing required fields" := by
  have hdata : ("Missing required fields: " ++ j).data =
      "Missing required fields: ".data ++ j.data := rfl
  unfold beforeFirstColon
  rw [hdata]
  simp +decide [List.takeWhile]

/-- C6 amended: validation reports all missing required fields in **one**
error entry, `"Missing required fields: <comma-joined names>"`, and the
orchestrator's tool result carries `missing_fields` equal to each error's
prefix before the first `":"` — the constant `["Missing required fields"]`
in the missing-field case, not the list of field names (the names appear
only inside the error/clarification strings). -/
theorem C6_missing_fields_reporting :
    ∀ (st : ExecutionServiceState) (env : HandlerEnv) (args : List (String × JVal))
      (cid oid : Option String),
      env.fault = none →
      requiredFields.filter (fun f => !(dictGetN args f).truthy) ≠ [] →
      (validate_calendar_intent args cid oid).toOption.map (fun vr => vr.errors) =
        some [("Missing required fields: " ++ String.intercalate ", "
          (requiredFields.filter (fun f => !(dictGetN args f).truthy)))] ∧
      (handle_tool_call st env "create_appointment" (.dict args) cid oid).1 =
        [("success", .bool false),
         ("error", .str ("Missing required fields: " ++ String.intercalate ", "
           (requiredFields.filter (fun f => !(dictGetN args f).truthy)))),
         ("should_retry", .bool true),
         ("clarification", .str ("VALIDATION_FAILED: Cannot create appointment. " ++
           ("Missing required fields: " ++ String.intercalate ", "
             (requiredFields.filter (fun f => !(dictGetN args f).truthy))) ++
           ". Please ask the user to provide the missing or correct information.")),
         ("missing_fields", .arr [.str "Missing required fields"])] := by
  intro st env args cid oid hfault hmiss
  have hval := validate_missing_fields args cid oid hmiss
  constructor
  · rw [hval]
    rfl
  · simp only [handle_tool_call, routeToolCall, hfault, if_pos rfl,
      handle_create_appointment, parse_tool_call_safely, hval,
      generate_clarification_message, beforeFirstColon_missing_msg]
    simp [String.intercalate, String.intercalate.go, beforeFirstColon_missing_msg]

/-- Closed witness for the amended C6. -/
theorem C6_missing_fields_reporting_witness :
    (validate_calendar_intent c6Args none none).toOption.map (fun vr => vr.errors) =
      some ["Missing required fields: start_time, end_time, attendee_email"] ∧
    (handle_tool_call stInit envOk "create_appointment" (.dict c6Args) none none).1 =
      [("success", .bool false),
       ("error", .str "Missing required fields: start_time, end_time, attendee_email"),
       ("should_retry", .bool true),
       ("clarification", .str ("VALIDATION_FAILED: Cannot create appointment. " ++
         "Missing required fields: start_time, end_time, attendee_email" ++
         ". Please ask the user to provide the missing or correct information.")),
       ("missing_fields", .arr [.str "Missing required fields"])] := by
  have h := C6_missing_fields_reporting stInit envOk c6Args none none rfl (by decide)
  exact ⟨h.1, h.2⟩

end AxoimVoice

